import Mathlib

/-!
Verification development for the xiaoxuan-core-compiler front end
(`src/lexer.rs` and `src/parser.rs`).

The two Rust source files are embedded shallowly:

* characters are Lean `Char`, strings are `List Char` / `String`;
* Rust `i64` values are `Int` (the `str::parse::<i64>` overflow check is
  modelled explicitly);
* Rust `f64` values are modelled exactly as decimal fractions: an `F64`
  record `num / den` with `den` a power of ten, kept unreduced.  Every
  finite `f64` is a rational; `f64` string parsing rounds to the nearest
  double while the model keeps the exact decimal value, and the
  `i64 -> f64` cast is modelled as the exact injection `v / 1`.  All
  concrete numeric values used in the theorems below (small integers and
  short decimals) are exactly representable, where the model and `f64`
  agree up to the denoted rational;
* `Result<T, Error>` becomes `Except Err T`; a Rust panic (`todo!()`,
  out-of-bounds indexing) becomes the distinguished error `Err.Panic`,
  which is never caught by any embedded error-recovery point, mirroring
  the fact that a Rust panic propagates past `match`/`if let` recovery;
* the mutually recursive parser functions take an explicit fuel argument
  that every call decrements; exhaustion yields the distinguished value
  `Err.Fuel`.  Whenever an embedded run returns `.ok`, `.error (.LexerError _)`,
  `.error (.ParserError _)` or `.error (.Panic _)`, the fuel did not
  interfere and the result is the behaviour of the Rust code.

Rust structs are flattened into constructor fields (for instance the Rust
`BinaryExpression { operator, left, right, range }` struct inside
`Expression::BinaryExpression` becomes four constructor arguments).
Function and field names follow the source.
-/

set_option maxHeartbeats 1600000

namespace XiaoXuan

/-- Character constants written via code points to keep the source ASCII-clean. -/
def squote : Char := Char.ofNat 39

/-- Backtick character, the template-string delimiter. -/
def backtick : Char := Char.ofNat 96

/-- Left curly brace character. -/
def lbrace_char : Char := Char.ofNat 123

/-- Right curly brace character. -/
def rbrace_char : Char := Char.ofNat 125

/-- Exact model of an `f64` value as produced by the lexer: the unreduced
fraction `num / den`, with `den` a positive power of ten.  Two `F64` values
denote the same `f64` exactly when the fractions are equal as rationals;
the lexer and parser only construct and carry these values, never compare
or combine them, so the unreduced representation is faithful. -/
structure F64 where
  num : Int
  den : Nat
deriving DecidableEq, Repr

/-- Model of the Rust `v as f64` cast of an `i64`.  Exact for every value
the theorems below use (the cast rounds only beyond 2^53). -/
def f64_of_i64 (v : Int) : F64 := { num := v, den := 1 }

/-- Error type: the Rust `Error` enum (`LexerError` / `ParserError`) extended
with `Panic` (a Rust `todo!()` or out-of-bounds abort) and `Fuel`
(insufficient fuel in the embedding; never produced by the Rust code). -/
inductive Err where
  | LexerError (msg : String)
  | ParserError (msg : String)
  | Panic (msg : String)
  | Fuel
deriving DecidableEq, Repr

/-- Result type of the embedded fallible functions. -/
abbrev Res (α : Type) : Type := Except Err α

abbrev Ch := Char

/-- The token variants of `token.rs`, reconstructed from every construction
and match site in `lexer.rs` / `parser.rs`. -/
inductive Token where
  | NewLine
  | Slash
  | LeftBrace
  | RightBrace
  | Equal
  | Assign
  | GreaterThanOrEqual
  | GreaterThan
  | LogicOr
  | Pipe
  | LogicAnd
  | Combine
  | NotEqual
  | Exclamation
  | LessThanOrEqual
  | LessThan
  | Concat
  | Plus
  | OptionalAnd
  | Minus
  | Asterisk
  | OptionalOr
  | Unwrap
  | Cast
  | At
  | Ellipsis
  | IntervalInclusive
  | Interval
  | Dot
  | LeftBracket
  | RightBracket
  | LeftParen
  | RightParen
  | Comma
  | Separator
  | Colon
  | Integer (value : Int)
  | Float (value : F64)
  | Imaginary (value : F64)
  | Bit (width : Nat) (bytes : List Nat)
  | Boolean (value : Bool)
  | Char (value : Ch)
  | GeneralString (value : String)
  | TemplateString (value : String)
  | HashString (value : String)
  | NamedOperator (value : String)
  | Attribute (value : String)
  | Identifier (value : String)
  | Do
  | Join
  | Let
  | Fn
  | Sign
  | If
  | Then
  | Else
  | For
  | Next
  | Each
  | In
  | Branch
  | Match
  | Case
  | Default
  | Where
  | Only
  | Into
  | Regular
  | Template
  | Function
  | Type'
  | Which
  | Empty
  | Pattern
  | Limit
  | Use
  | Const
  | Enum
  | Struct
  | Union
  | Trait
  | Impl
  | Alias
deriving Repr

/-- Flat record used only to decide equality of tokens without a quadratic
case analysis: a constructor tag plus one field per payload type. -/
structure TokenEnc where
  tag : Nat
  i : Int := 0
  q : F64 := { num := 0, den := 1 }
  w : Nat := 0
  bs : List Nat := []
  b : Bool := false
  c : Ch := 'a'
  s : String := ""
deriving DecidableEq

/-- Injective encoding of `Token` into `TokenEnc`. -/
def Token.enc : Token → TokenEnc
  | .NewLine => { tag := 0 }
  | .Slash => { tag := 1 }
  | .LeftBrace => { tag := 2 }
  | .RightBrace => { tag := 3 }
  | .Equal => { tag := 4 }
  | .Assign => { tag := 5 }
  | .GreaterThanOrEqual => { tag := 6 }
  | .GreaterThan => { tag := 7 }
  | .LogicOr => { tag := 8 }
  | .Pipe => { tag := 9 }
  | .LogicAnd => { tag := 10 }
  | .Combine => { tag := 11 }
  | .NotEqual => { tag := 12 }
  | .Exclamation => { tag := 13 }
  | .LessThanOrEqual => { tag := 14 }
  | .LessThan => { tag := 15 }
  | .Concat => { tag := 16 }
  | .Plus => { tag := 17 }
  | .OptionalAnd => { tag := 18 }
  | .Minus => { tag := 19 }
  | .Asterisk => { tag := 20 }
  | .OptionalOr => { tag := 21 }
  | .Unwrap => { tag := 22 }
  | .Cast => { tag := 23 }
  | .At => { tag := 24 }
  | .Ellipsis => { tag := 25 }
  | .IntervalInclusive => { tag := 26 }
  | .Interval => { tag := 27 }
  | .Dot => { tag := 28 }
  | .LeftBracket => { tag := 29 }
  | .RightBracket => { tag := 30 }
  | .LeftParen => { tag := 31 }
  | .RightParen => { tag := 32 }
  | .Comma => { tag := 33 }
  | .Separator => { tag := 34 }
  | .Colon => { tag := 35 }
  | .Integer v => { tag := 36, i := v }
  | .Float v => { tag := 37, q := v }
  | .Imaginary v => { tag := 38, q := v }
  | .Bit w bs => { tag := 39, w := w, bs := bs }
  | .Boolean v => { tag := 40, b := v }
  | .Char v => { tag := 41, c := v }
  | .GeneralString v => { tag := 42, s := v }
  | .TemplateString v => { tag := 43, s := v }
  | .HashString v => { tag := 44, s := v }
  | .NamedOperator v => { tag := 45, s := v }
  | .Attribute v => { tag := 46, s := v }
  | .Identifier v => { tag := 47, s := v }
  | .Do => { tag := 48 }
  | .Join => { tag := 49 }
  | .Let => { tag := 50 }
  | .Fn => { tag := 51 }
  | .Sign => { tag := 52 }
  | .If => { tag := 53 }
  | .Then => { tag := 54 }
  | .Else => { tag := 55 }
  | .For => { tag := 56 }
  | .Next => { tag := 57 }
  | .Each => { tag := 58 }
  | .In => { tag := 59 }
  | .Branch => { tag := 60 }
  | .Match => { tag := 61 }
  | .Case => { tag := 62 }
  | .Default => { tag := 63 }
  | .Where => { tag := 64 }
  | .Only => { tag := 65 }
  | .Into => { tag := 66 }
  | .Regular => { tag := 67 }
  | .Template => { tag := 68 }
  | .Function => { tag := 69 }
  | .Type' => { tag := 70 }
  | .Which => { tag := 71 }
  | .Empty => { tag := 72 }
  | .Pattern => { tag := 73 }
  | .Limit => { tag := 74 }
  | .Use => { tag := 75 }
  | .Const => { tag := 76 }
  | .Enum => { tag := 77 }
  | .Struct => { tag := 78 }
  | .Union => { tag := 79 }
  | .Trait => { tag := 80 }
  | .Impl => { tag := 81 }
  | .Alias => { tag := 82 }

/-- Left inverse of `Token.enc`, witnessing its injectivity. -/
def Token.dec (e : TokenEnc) : Option Token :=
  match e.tag with
  | 0 => some .NewLine
  | 1 => some .Slash
  | 2 => some .LeftBrace
  | 3 => some .RightBrace
  | 4 => some .Equal
  | 5 => some .Assign
  | 6 => some .GreaterThanOrEqual
  | 7 => some .GreaterThan
  | 8 => some .LogicOr
  | 9 => some .Pipe
  | 10 => some .LogicAnd
  | 11 => some .Combine
  | 12 => some .NotEqual
  | 13 => some .Exclamation
  | 14 => some .LessThanOrEqual
  | 15 => some .LessThan
  | 16 => some .Concat
  | 17 => some .Plus
  | 18 => some .OptionalAnd
  | 19 => some .Minus
  | 20 => some .Asterisk
  | 21 => some .OptionalOr
  | 22 => some .Unwrap
  | 23 => some .Cast
  | 24 => some .At
  | 25 => some .Ellipsis
  | 26 => some .IntervalInclusive
  | 27 => some .Interval
  | 28 => some .Dot
  | 29 => some .LeftBracket
  | 30 => some .RightBracket
  | 31 => some .LeftParen
  | 32 => some .RightParen
  | 33 => some .Comma
  | 34 => some .Separator
  | 35 => some .Colon
  | 36 => some (.Integer e.i)
  | 37 => some (.Float e.q)
  | 38 => some (.Imaginary e.q)
  | 39 => some (.Bit e.w e.bs)
  | 40 => some (.Boolean e.b)
  | 41 => some (.Char e.c)
  | 42 => some (.GeneralString e.s)
  | 43 => some (.TemplateString e.s)
  | 44 => some (.HashString e.s)
  | 45 => some (.NamedOperator e.s)
  | 46 => some (.Attribute e.s)
  | 47 => some (.Identifier e.s)
  | 48 => some .Do
  | 49 => some .Join
  | 50 => some .Let
  | 51 => some .Fn
  | 52 => some .Sign
  | 53 => some .If
  | 54 => some .Then
  | 55 => some .Else
  | 56 => some .For
  | 57 => some .Next
  | 58 => some .Each
  | 59 => some .In
  | 60 => some .Branch
  | 61 => some .Match
  | 62 => some .Case
  | 63 => some .Default
  | 64 => some .Where
  | 65 => some .Only
  | 66 => some .Into
  | 67 => some .Regular
  | 68 => some .Template
  | 69 => some .Function
  | 70 => some .Type'
  | 71 => some .Which
  | 72 => some .Empty
  | 73 => some .Pattern
  | 74 => some .Limit
  | 75 => some .Use
  | 76 => some .Const
  | 77 => some .Enum
  | 78 => some .Struct
  | 79 => some .Union
  | 80 => some .Trait
  | 81 => some .Impl
  | 82 => some .Alias
  | _ => none

theorem Token.dec_enc (t : Token) : Token.dec t.enc = some t := by
  cases t <;> rfl

instance : DecidableEq Token := fun a b =>
  if h : a.enc = b.enc then
    isTrue (by
      have h2 := congrArg Token.dec h
      rw [Token.dec_enc, Token.dec_enc] at h2
      exact Option.some.inj h2)
  else
    isFalse (fun hab => h (by rw [hab]))

/-- Source location placeholder (`token.rs`); always zero in this code base. -/
structure Location where
  file_id : Nat
  start : Nat
  end_ : Nat
deriving DecidableEq, Repr

/-- A token together with its (placeholder) location. -/
structure TokenDetail where
  location : Location
  token : Token
deriving DecidableEq, Repr

/-- Mirrors `new_location` in `lexer.rs`: a constant zero location. -/
def new_location : Location := { file_id := 0, start := 0, end_ := 0 }

/-- Mirrors `new_token_detail` in `lexer.rs`. -/
def new_token_detail (token : Token) : TokenDetail :=
  { location := new_location, token := token }

/-- Mirrors `is_none_zero_number`. -/
def is_none_zero_number (c : Char) : Bool :=
  decide (Char.ofNat 49 ≤ c ∧ c ≤ Char.ofNat 57)

/-- Mirrors `is_valid_first_letter_of_identifier_or_keyword`. -/
def is_valid_first_letter_of_identifier_or_keyword (c : Char) : Bool :=
  decide ((Char.ofNat 97 ≤ c ∧ c ≤ Char.ofNat 122) ∨
    (Char.ofNat 65 ≤ c ∧ c ≤ Char.ofNat 90) ∨ c = Char.ofNat 95)

/-- Mirrors `is_valid_letter_of_identifier_or_keyword`. -/
def is_valid_letter_of_identifier_or_keyword (c : Char) : Bool :=
  is_valid_first_letter_of_identifier_or_keyword c ||
    decide (Char.ofNat 48 ≤ c ∧ c ≤ Char.ofNat 57)

/-- Mirrors `is_char`: tests whether the next character equals `expected`. -/
def is_char (expected : Char) (source_chars : List Char) : Bool :=
  match source_chars with
  | first :: _ => first == expected
  | [] => false

/-- Mirrors `is_chars`: tests whether the next two characters match. -/
def is_chars (e0 e1 : Char) (source_chars : List Char) : Bool :=
  match source_chars with
  | a :: rest => a == e0 && is_char e1 rest
  | [] => false

/-- Mirrors `move_forword` (sic): drop `count` characters. -/
def move_forword (source_chars : List Char) (count : Nat) : List Char :=
  source_chars.drop count

/-- Digit value of an ASCII digit character. -/
def digit_val (c : Char) : Nat := c.toNat - 48

/-- Numeric value of a nonempty all-digit character list; `none` on the empty
list or any non-digit, matching the failure of Rust numeric `parse`. -/
def nat_of_digits (cs : List Char) : Option Nat :=
  match cs with
  | [] => none
  | _ =>
    cs.foldl
      (fun acc c => match acc with
        | none => none
        | some n => if c.isDigit then some (n * 10 + digit_val c) else none)
      (some 0)

/-- Like `nat_of_digits` but the empty list means zero (a fraction part may
be empty, as in the literal text `123.`). -/
def nat_of_digits0 (cs : List Char) : Option Nat :=
  match cs with
  | [] => some 0
  | _ => nat_of_digits cs

/-- Model of `str::parse::<i64>` on the digit strings the lexer produces:
fails on the empty string, a non-digit, or i64 overflow. -/
def parse_i64 (cs : List Char) : Option Int :=
  match nat_of_digits cs with
  | none => none
  | some n => if n ≤ 9223372036854775807 then some (n : Int) else none

/-- Splits a character list at the first occurrence of `sep`; the second
component is `none` when `sep` does not occur. -/
def split_at_char (sep : Char) (cs : List Char) : List Char × Option (List Char) :=
  match cs with
  | [] => ([], none)
  | c :: rest =>
    if c = sep then ([], some rest)
    else
      let (before, after) := split_at_char sep rest
      (c :: before, after)

/-- Model of `str::parse::<f64>` on the numeric strings the lexer assembles
(`D+ ('.' D*)? ('e' '-'? D+)?`), with the value kept as an exact decimal
fraction `(ip.fp) * 10^e`.  Fails exactly where Rust fails on these shapes:
an empty or malformed mantissa, or an empty exponent digit group. -/
def parse_f64 (cs : List Char) : Option F64 :=
  let (mant, exp_part) := split_at_char 'e' cs
  let (int_part, frac_part) := split_at_char '.' mant
  match nat_of_digits int_part with
  | none => none
  | some ip =>
    let frac_digits := frac_part.getD []
    match nat_of_digits0 frac_digits with
    | none => none
    | some fp =>
      let exp_val : Option Int :=
        match exp_part with
        | none => some 0
        | some ('-' :: ds) => (nat_of_digits ds).map (fun n => -(n : Int))
        | some ds => (nat_of_digits ds).map (fun n => (n : Int))
      match exp_val with
      | none => none
      | some e =>
        let num0 : Int := (ip * 10 ^ frac_digits.length + fp : Nat)
        let den0 : Nat := 10 ^ frac_digits.length
        match e with
        | Int.ofNat k => some { num := num0 * 10 ^ k, den := den0 }
        | Int.negSucc k => some { num := num0, den := den0 * 10 ^ (k + 1) }

/-- Position helper for `skip_line_comment`: the value of `end_pos` when the
loop in the Rust code breaks (the line terminator stays in the stream). -/
def skip_line_comment_pos : List Char → Nat
  | [] => 0
  | '\r' :: rest => if is_char '\n' rest then 1 else 0
  | '\n' :: _ => 0
  | _ :: rest => 1 + skip_line_comment_pos rest

/-- Mirrors `skip_line_comment`: skip to end of line, keeping the terminator. -/
def skip_line_comment (source_chars : List Char) : List Char :=
  source_chars.drop (skip_line_comment_pos source_chars)

/-- Position helper for `skip_comment`: `end_pos` at the break, or `none` when
no closing marker exists before end of input. -/
def skip_comment_pos : List Char → Option Nat
  | [] => none
  | '*' :: rest =>
    if is_char '/' rest then some 1
    else (skip_comment_pos rest).map (fun n => n + 1)
  | _ :: rest => (skip_comment_pos rest).map (fun n => n + 1)

/-- Mirrors `skip_comment`: skip a non-nesting block comment. -/
def skip_comment (source_chars : List Char) : Res (List Char) :=
  match skip_comment_pos source_chars with
  | none => .error (.LexerError "expected comment ending symbol")
  | some end_pos => .ok (move_forword source_chars (end_pos + 1))

/-- Position helper for the triple-quote scan shared by `lex_document_comment`
(single quotes) and `lex_raw_string` (double quotes): `end_pos` at the break. -/
def triple_quote_pos (q : Char) : List Char → Option Nat
  | [] => none
  | c :: rest =>
    if c = q ∧ is_chars q q rest then some 2
    else (triple_quote_pos q rest).map (fun n => n + 1)

/-- Mirrors `lex_document_comment`; the text is discarded by the caller. -/
def lex_document_comment (source_chars : List Char) : Res (String × List Char) :=
  match triple_quote_pos squote source_chars with
  | none => .error (.LexerError "expected document comment ending symbol")
  | some end_pos =>
    let value_chars := (source_chars.take (end_pos - 2)).drop 2
    .ok (String.mk value_chars, move_forword source_chars (end_pos + 1))

/-- Position helper for `lex_char`: `end_pos` at the break (`none` when the
closing quote is missing). -/
def lex_char_pos : List Char → Option Nat
  | [] => none
  | c :: rest =>
    if c = '\\' then
      match rest with
      | r0 :: rest2 =>
        if r0 = squote then (lex_char_pos rest2).map (fun n => n + 2)
        else (lex_char_pos (r0 :: rest2)).map (fun n => n + 1)
      | [] => none
    else if c = squote then some 0
    else (lex_char_pos rest).map (fun n => n + 1)

/-- Mirrors `lex_char`.  The Rust code indexes `value_chars[0]`, which panics
on the empty character literal; the model makes that panic explicit. -/
def lex_char (source_chars : List Char) : Res (TokenDetail × List Char) :=
  match lex_char_pos source_chars with
  | none => .error (.LexerError "expected char literal ending symbol")
  | some end_pos =>
    let value_chars := source_chars.take end_pos
    match value_chars with
    | [] => .error (.Panic "index out of bounds")
    | v0 :: _ =>
      .ok (new_token_detail (Token.Char v0), move_forword source_chars (end_pos + 1))

/-- Position helper shared by `lex_string` (terminator `"`) and
`lex_template_string` (terminator backtick): `end_pos` at the break. -/
def lex_terminated_pos (q : Char) : List Char → Option Nat
  | [] => none
  | c :: rest =>
    if c = '\\' then
      match rest with
      | r0 :: rest2 =>
        if r0 = q then (lex_terminated_pos q rest2).map (fun n => n + 2)
        else (lex_terminated_pos q (r0 :: rest2)).map (fun n => n + 1)
      | [] => none
    else if c = q then some 0
    else (lex_terminated_pos q rest).map (fun n => n + 1)

/-- Mirrors `lex_string`. -/
def lex_string (source_chars : List Char) : Res (TokenDetail × List Char) :=
  match lex_terminated_pos '"' source_chars with
  | none => .error (.LexerError "expected string literal ending symbol")
  | some end_pos =>
    let value := String.mk (source_chars.take end_pos)
    .ok (new_token_detail (Token.GeneralString value), move_forword source_chars (end_pos + 1))

/-- Mirrors `lex_raw_string`. -/
def lex_raw_string (source_chars : List Char) : Res (TokenDetail × List Char) :=
  match triple_quote_pos '"' source_chars with
  | none => .error (.LexerError "expected raw string literal ending symbol")
  | some end_pos =>
    let value := String.mk ((source_chars.take (end_pos - 2)).drop 2)
    .ok (new_token_detail (Token.GeneralString value), move_forword source_chars (end_pos + 1))

/-- Mirrors `lex_template_string`. -/
def lex_template_string (source_chars : List Char) : Res (TokenDetail × List Char) :=
  match lex_terminated_pos backtick source_chars with
  | none => .error (.LexerError "expected template string literal ending symbol")
  | some end_pos =>
    let value := String.mk (source_chars.take end_pos)
    .ok (new_token_detail (Token.TemplateString value), move_forword source_chars (end_pos + 1))

/-- Greedy identifier-character scan shared by `lex_hash_string` and
`lex_identifier_or_keyword`: length of the identifier prefix. -/
def identifier_scan_pos : List Char → Nat
  | [] => 0
  | c :: rest =>
    if is_valid_letter_of_identifier_or_keyword c then 1 + identifier_scan_pos rest
    else 0

/-- Mirrors `lex_hash_string`. -/
def lex_hash_string (source_chars : List Char) : Res (TokenDetail × List Char) :=
  let end_pos := identifier_scan_pos source_chars
  let value := String.mk (source_chars.take end_pos)
  .ok (new_token_detail (Token.HashString value), move_forword source_chars end_pos)

/-- Position helper for `lex_named_operator`: `end_pos` at the closing colon,
or the error the Rust loop returns. -/
def lex_named_operator_pos : List Char → Res Nat
  | [] => .error (.LexerError "expected named operator ending symbol")
  | c :: rest =>
    if c = ':' then .ok 0
    else if is_valid_letter_of_identifier_or_keyword c then
      (lex_named_operator_pos rest).map (fun n => n + 1)
    else .error (.LexerError "invalid identifier letter")

/-- Mirrors `lex_named_operator`. -/
def lex_named_operator (source_chars : List Char) : Res (TokenDetail × List Char) :=
  match lex_named_operator_pos source_chars with
  | .error e => .error e
  | .ok end_pos =>
    let value := String.mk (source_chars.take end_pos)
    .ok (new_token_detail (Token.NamedOperator value), move_forword source_chars (end_pos + 1))

/-- Mirrors `lex_attribute`: scan to the first `]`. -/
def lex_attribute (source_chars : List Char) : Res (TokenDetail × List Char) :=
  match source_chars.findIdx? (fun c => c = ']') with
  | none => .error (.LexerError "expected attribute ending symbol")
  | some end_pos =>
    let value := String.mk ((source_chars.take end_pos).drop 1)
    .ok (new_token_detail (Token.Attribute value), move_forword source_chars (end_pos + 1))

/-- Mirrors `lex_16_radix_integer`, which is `todo!()` in the source. -/
def lex_16_radix_integer (_source_chars : List Char) : Res (TokenDetail × List Char) :=
  .error (.Panic "not yet implemented")

/-- Mirrors `lex_2_radix_integer`, which is `todo!()` in the source. -/
def lex_2_radix_integer (_source_chars : List Char) : Res (TokenDetail × List Char) :=
  .error (.Panic "not yet implemented")

/-- Mirrors `lex_zero_point_float`, which is `todo!()` in the source. -/
def lex_zero_point_float (_source_chars : List Char) : Res (TokenDetail × List Char) :=
  .error (.Panic "not yet implemented")

/-- Mirrors `continue_lex_bit_number`, which is `todo!()` in the source. -/
def continue_lex_bit_number (_previous_chars : List Char) (_remain_chars : List Char) :
    Res (TokenDetail × List Char) :=
  .error (.Panic "not yet implemented")

/-- Mirrors `extend_vec_with_with_separator_and_char_slice`. -/
def extend_vec_with_with_separator_and_char_slice
    (left : List Char) (separator : Char) (right : List Char) : List Char :=
  left ++ [separator] ++ right

/-- Mirrors `continue_lex_imaginary_number`. -/
def continue_lex_imaginary_number (previous_chars : List Char) (remain_chars : List Char) :
    Res (TokenDetail × List Char) :=
  let value_string := previous_chars.filter (fun c => c ≠ '_')
  match parse_f64 value_string with
  | none => .error (.LexerError "invalid float number")
  | some value => .ok (new_token_detail (Token.Imaginary value), remain_chars)

/-- Loop of `continue_lex_float_number_exponent`, recursing over the
characters after `e` with the current `end_pos`. -/
def lex_exponent_loop (previous_chars : List Char) (remain_chars : List Char)
    (end_pos : Nat) (chars : List Char) : Res (TokenDetail × List Char) :=
  let finish : Res (TokenDetail × List Char) :=
    let value_chars :=
      extend_vec_with_with_separator_and_char_slice previous_chars 'e'
        (remain_chars.take end_pos)
    let value_string := value_chars.filter (fun c => c ≠ '_')
    match parse_f64 value_string with
    | none => .error (.LexerError "invalid float number")
    | some value =>
      .ok (new_token_detail (Token.Float value), move_forword remain_chars end_pos)
  match chars with
  | [] => finish
  | first :: rest =>
    if first = '-' then
      if end_pos = 0 then lex_exponent_loop previous_chars remain_chars (end_pos + 1) rest
      else .error (.LexerError "invalid exponent number")
    else if first.isDigit ∨ first = '_' then
      lex_exponent_loop previous_chars remain_chars (end_pos + 1) rest
    else if first = '.' then
      if is_char '.' rest then finish
      else .error (.LexerError "unsupport float exponent")
    else if first = squote then .error (.LexerError "invalid bit number")
    else if first = 'i' then
      let extend_chars :=
        extend_vec_with_with_separator_and_char_slice previous_chars 'e'
          (remain_chars.take end_pos)
      continue_lex_imaginary_number extend_chars rest
    else if first = 'e' then .error (.LexerError "invalid exponent number")
    else finish

/-- Mirrors `continue_lex_float_number_exponent`. -/
def continue_lex_float_number_exponent (previous_chars : List Char)
    (remain_chars : List Char) : Res (TokenDetail × List Char) :=
  lex_exponent_loop previous_chars remain_chars 0 remain_chars

/-- Loop of `continue_lex_float_number`, recursing over the characters after
the decimal point with the current `end_pos`. -/
def lex_float_loop (previous_chars : List Char) (remain_chars : List Char)
    (end_pos : Nat) (chars : List Char) : Res (TokenDetail × List Char) :=
  let finish : Res (TokenDetail × List Char) :=
    let value_chars :=
      extend_vec_with_with_separator_and_char_slice previous_chars '.'
        (remain_chars.take end_pos)
    let value_string := value_chars.filter (fun c => c ≠ '_')
    match parse_f64 value_string with
    | none => .error (.LexerError "invalid float number")
    | some value =>
      .ok (new_token_detail (Token.Float value), move_forword remain_chars end_pos)
  match chars with
  | [] => finish
  | first :: rest =>
    if first.isDigit ∨ first = '_' then
      lex_float_loop previous_chars remain_chars (end_pos + 1) rest
    else if first = '.' then .error (.LexerError "invalid float number")
    else if first = squote then .error (.LexerError "invalid bit number")
    else if first = 'i' then
      let extend_chars :=
        extend_vec_with_with_separator_and_char_slice previous_chars '.'
          (remain_chars.take end_pos)
      continue_lex_imaginary_number extend_chars rest
    else if first = 'e' then
      let extend_chars :=
        extend_vec_with_with_separator_and_char_slice previous_chars '.'
          (remain_chars.take end_pos)
      continue_lex_float_number_exponent extend_chars rest
    else finish

/-- Mirrors `continue_lex_float_number`. -/
def continue_lex_float_number (previous_chars : List Char) (remain_chars : List Char) :
    Res (TokenDetail × List Char) :=
  lex_float_loop previous_chars remain_chars 0 remain_chars

/-- Loop of `lex_number`, recursing over the remaining characters with the
current `end_pos` into the original slice. -/
def lex_number_loop (source_chars : List Char) (end_pos : Nat) (chars : List Char) :
    Res (TokenDetail × List Char) :=
  let finish : Res (TokenDetail × List Char) :=
    let value_string := (source_chars.take end_pos).filter (fun c => c ≠ '_')
    match parse_i64 value_string with
    | none => .error (.LexerError "invalid integer number")
    | some value =>
      .ok (new_token_detail (Token.Integer value), move_forword source_chars end_pos)
  match chars with
  | [] => finish
  | first :: rest =>
    if first.isDigit ∨ first = '_' then
      lex_number_loop source_chars (end_pos + 1) rest
    else if first = '.' then
      if is_char '.' rest then finish
      else continue_lex_float_number (source_chars.take end_pos) rest
    else if first = squote then
      if is_chars squote squote rest then finish
      else continue_lex_bit_number (source_chars.take end_pos) rest
    else if first = 'i' then
      continue_lex_imaginary_number (source_chars.take end_pos) rest
    else if first = 'e' then
      continue_lex_float_number_exponent (source_chars.take end_pos) rest
    else finish

/-- Mirrors `lex_number`. -/
def lex_number (source_chars : List Char) : Res (TokenDetail × List Char) :=
  lex_number_loop source_chars 0 source_chars

/-- Identifier scan of `lex_identifier_or_keyword` followed by the keyword
table lookup `lookup_keyword`. -/
def lookup_keyword (name : String) : Option Token :=
  match name with
  | "true" => some (Token.Boolean true)
  | "false" => some (Token.Boolean false)
  | "do" => some Token.Do
  | "join" => some Token.Join
  | "let" => some Token.Let
  | "fn" => some Token.Fn
  | "sign" => some Token.Sign
  | "if" => some Token.If
  | "then" => some Token.Then
  | "else" => some Token.Else
  | "for" => some Token.For
  | "next" => some Token.Next
  | "each" => some Token.Each
  | "in" => some Token.In
  | "branch" => some Token.Branch
  | "match" => some Token.Match
  | "case" => some Token.Case
  | "default" => some Token.Default
  | "where" => some Token.Where
  | "only" => some Token.Only
  | "into" => some Token.Into
  | "regular" => some Token.Regular
  | "template" => some Token.Template
  | "function" => some Token.Function
  | "type" => some Token.Type'
  | "which" => some Token.Which
  | "empty" => some Token.Empty
  | "pattern" => some Token.Pattern
  | "limit" => some Token.Limit
  | "use" => some Token.Use
  | "const" => some Token.Const
  | "enum" => some Token.Enum
  | "struct" => some Token.Struct
  | "union" => some Token.Union
  | "trait" => some Token.Trait
  | "impl" => some Token.Impl
  | "alias" => some Token.Alias
  | _ => none

/-- Mirrors `lex_identifier_or_keyword`. -/
def lex_identifier_or_keyword (source_chars : List Char) : Res (TokenDetail × List Char) :=
  let end_pos := identifier_scan_pos source_chars
  let value := String.mk (source_chars.take end_pos)
  let rest := move_forword source_chars end_pos
  match lookup_keyword value with
  | some token => .ok (new_token_detail token, rest)
  | none => .ok (new_token_detail (Token.Identifier value), rest)

/-- The main loop of `tokenize`.  Every branch of the Rust `match` is kept,
including the duplicated `is_char('.', rest)` test in the `'0'` branch (which
makes the zero-point-float branch unreachable) and the fallback that turns a
failed named-operator scan into a plain colon.  A `Panic` or `Fuel` outcome
of a sub-scan always propagates, as a Rust panic would. -/
def tokenize_loop : Nat → List Char → List TokenDetail → Res (List TokenDetail)
  | 0, _, _ => .error .Fuel
  | fuel + 1, chars, token_details =>
    match chars with
    | [] => .ok token_details
    | first :: rest =>
      let push (t : Token) : List TokenDetail := token_details ++ [new_token_detail t]
      let step (r : Res (TokenDetail × List Char)) : Res (List TokenDetail) :=
        match r with
        | .error e => .error e
        | .ok (td, post_rest) => tokenize_loop fuel post_rest (token_details ++ [td])
      if first = ' ' ∨ first = '\t' then
        tokenize_loop fuel rest token_details
      else if first = '\r' then
        if is_char '\n' rest then tokenize_loop fuel (move_forword rest 1) (push .NewLine)
        else tokenize_loop fuel rest (push .NewLine)
      else if first = '\n' ∨ first = ';' then
        tokenize_loop fuel rest (push .NewLine)
      else if first = '/' then
        if is_char '/' rest then
          tokenize_loop fuel (skip_line_comment rest) token_details
        else if is_char '*' rest then
          match skip_comment rest with
          | .error e => .error e
          | .ok post_rest => tokenize_loop fuel post_rest token_details
        else tokenize_loop fuel rest (push .Slash)
      else if first = lbrace_char then tokenize_loop fuel rest (push .LeftBrace)
      else if first = rbrace_char then tokenize_loop fuel rest (push .RightBrace)
      else if first = '=' then
        if is_char '=' rest then tokenize_loop fuel (move_forword rest 1) (push .Equal)
        else tokenize_loop fuel rest (push .Assign)
      else if first = '>' then
        if is_char '=' rest then
          tokenize_loop fuel (move_forword rest 1) (push .GreaterThanOrEqual)
        else tokenize_loop fuel rest (push .GreaterThan)
      else if first = '|' then
        if is_char '|' rest then tokenize_loop fuel (move_forword rest 1) (push .LogicOr)
        else tokenize_loop fuel rest (push .Pipe)
      else if first = '&' then
        if is_char '&' rest then tokenize_loop fuel (move_forword rest 1) (push .LogicAnd)
        else tokenize_loop fuel rest (push .Combine)
      else if first = '!' then
        if is_char '=' rest then tokenize_loop fuel (move_forword rest 1) (push .NotEqual)
        else tokenize_loop fuel rest (push .Exclamation)
      else if first = '<' then
        if is_char '=' rest then
          tokenize_loop fuel (move_forword rest 1) (push .LessThanOrEqual)
        else tokenize_loop fuel rest (push .LessThan)
      else if first = '+' then
        if is_char '+' rest then tokenize_loop fuel (move_forword rest 1) (push .Concat)
        else tokenize_loop fuel rest (push .Plus)
      else if first = '-' then
        if is_char '>' rest then tokenize_loop fuel (move_forword rest 1) (push .OptionalAnd)
        else tokenize_loop fuel rest (push .Minus)
      else if first = '*' then tokenize_loop fuel rest (push .Asterisk)
      else if first = '?' then
        if is_char '?' rest then tokenize_loop fuel (move_forword rest 1) (push .OptionalOr)
        else tokenize_loop fuel rest (push .Unwrap)
      else if first = '^' then tokenize_loop fuel rest (push .Cast)
      else if first = '@' then tokenize_loop fuel rest (push .At)
      else if first = '.' then
        if is_chars '.' '.' rest then tokenize_loop fuel (move_forword rest 2) (push .Ellipsis)
        else if is_chars '.' '=' rest then
          tokenize_loop fuel (move_forword rest 2) (push .IntervalInclusive)
        else if is_char '.' rest then
          tokenize_loop fuel (move_forword rest 1) (push .Interval)
        else tokenize_loop fuel rest (push .Dot)
      else if first = '[' then tokenize_loop fuel rest (push .LeftBracket)
      else if first = ']' then tokenize_loop fuel rest (push .RightBracket)
      else if first = '(' then tokenize_loop fuel rest (push .LeftParen)
      else if first = ')' then tokenize_loop fuel rest (push .RightParen)
      else if first = ',' then tokenize_loop fuel rest (push .Comma)
      else if first = squote then
        if is_chars squote squote rest then
          match lex_document_comment rest with
          | .error e => .error e
          | .ok (_, post_rest) => tokenize_loop fuel post_rest token_details
        else step (lex_char rest)
      else if first = '"' then
        if is_chars '"' '"' rest then step (lex_raw_string rest)
        else step (lex_string rest)
      else if first = backtick then step (lex_template_string rest)
      else if first = '0' then
        if is_char 'x' rest then step (lex_16_radix_integer rest)
        else if is_char 'b' rest then step (lex_2_radix_integer rest)
        else if is_char '.' rest then
          if is_char '.' rest then tokenize_loop fuel rest (push (.Integer 0))
          else step (lex_zero_point_float rest)
        else
          match rest.head? with
          | some second_char =>
            if is_valid_letter_of_identifier_or_keyword second_char then
              .error (.LexerError "invalid identifier")
            else tokenize_loop fuel rest (push (.Integer 0))
          | none => tokenize_loop fuel rest (push (.Integer 0))
      else if first = '#' then
        match rest.head? with
        | some second_char =>
          if is_valid_first_letter_of_identifier_or_keyword second_char then
            step (lex_hash_string rest)
          else if second_char = '[' then step (lex_attribute rest)
          else .error (.LexerError "invalid char '#'")
        | none => .error (.LexerError "invalid char '#'")
      else if first = ':' then
        match rest.head? with
        | some second_char =>
          if second_char = ':' then tokenize_loop fuel (move_forword rest 1) (push .Separator)
          else if is_valid_first_letter_of_identifier_or_keyword second_char then
            match lex_named_operator rest with
            | .ok (td, post_rest) => tokenize_loop fuel post_rest (token_details ++ [td])
            | .error (.Panic m) => .error (.Panic m)
            | .error .Fuel => .error .Fuel
            | .error _ => tokenize_loop fuel rest (push .Colon)
          else tokenize_loop fuel rest (push .Colon)
        | none => tokenize_loop fuel rest (push .Colon)
      else if is_none_zero_number first then step (lex_number chars)
      else if is_valid_first_letter_of_identifier_or_keyword first then
        step (lex_identifier_or_keyword chars)
      else .error (.LexerError ("invalid char " ++ String.mk [squote, first, squote]))

/-- Mirrors `tokenize`: the lexer entry point.  The fuel bound
`chars.length + 1` suffices because every loop iteration consumes at least
one character; a `Fuel` result would signal an insufficient bound, and none
of the theorems below produces one. -/
def tokenize (text : List Char) : Res (List TokenDetail) :=
  tokenize_loop (text.length + 1) text []

/-!
AST node types of `ast.rs`, reconstructed from every construction and match
site in `parser.rs`.  Rust wrapper structs are flattened into constructor
fields; `range` fields are kept (the parser always fills them with the
placeholder `new_range`).
-/

/-- The `Ellipsis` AST struct (`...` / `...name`). -/
structure Ellipsis where
  name : Option String
  range : Location
deriving DecidableEq, Repr

mutual

/-- The `Expression` sum type of the AST. -/
inductive Expression where
  | BlockExpression (is_explicit : Bool) (body : List Expression) (range : Location)
  | JoinExpression (body : List Expression) (range : Location)
  | LetExpression (value : LetExpression)
  | IfExpression (testing : Expression) (where_exp : Option Expression)
      (consequent : Expression) (alternate : Option Expression) (range : Location)
  | ForExpression (initializer : LetExpression) (body : Expression) (range : Location)
  | NextExpression (value : Expression) (range : Location)
  | EachExpression (variable_ : Expression) (object : Expression) (body : Expression)
      (range : Location)
  | BranchExpression (where_exp : Option Expression) (cases : List BranchCase)
      (default_exp : Option Expression) (range : Location)
  | MatchExpression (object : Expression) (where_exp : Option Expression)
      (cases : List MatchCase) (default_exp : Option Expression) (range : Location)
  | BinaryExpression (operator : Token) (left : Expression) (right : Expression)
      (range : Location)
  | UnaryExpression (operator : Token) (operand : Expression) (range : Location)
  | FunctionCallExpression (callee : Expression) (arguments : List Argument)
      (range : Location)
  | MemberExpression (member : MemberExpression)
  | ConstructorExpression (object : Identifier) (value : Map) (range : Location)
  | AnonymousFunction (parameters : List AnonymousParameter)
      (return_data_type : Option DataType) (whiches : List WhichEntry)
      (body : Expression) (range : Location)
  | Sign (parameters : List SignParameter) (return_data_type : Option DataType)
      (generics : List DataType) (whiches : List WhichEntry) (range : Location)
  | Identifier (id : Identifier)
  | PrefixIdentifier (identifier : Identifier) (range : Location)
  | Ellipsis (e : Ellipsis)
  | Interval (is_inclusive : Bool) (from_exp : Expression) (to_exp : Option Expression)
      (range : Location)
  | Tuple (elements : List Expression) (range : Location)
  | List (elements : List Expression) (range : Location)
  | Map (value : Map)
  | Literal (value : Literal)

/-- The `Literal` sum type of the AST. -/
inductive Literal where
  | Integer (value : Int) (range : Location)
  | Float (value : F64) (range : Location)
  | Complex (real : F64) (imaginary : F64) (range : Location)
  | Bit (width : Nat) (bytes : List Nat) (range : Location)
  | Boolean (value : Bool) (range : Location)
  | Char (value : Ch) (range : Location)
  | GeneralString (value : String) (range : Location)
  | TemplateString (fragments : List String) (expressions : List Expression)
      (range : Location)
  | HashString (value : String) (range : Location)
  | NamedOperator (value : String) (range : Location)

/-- The `Identifier` AST struct (namespace path, name, generics). -/
inductive Identifier where
  | mk (dirs : List String) (name : String) (generics : List DataType) (range : Location)

/-- The `DataType` sum type of the AST. -/
inductive DataType where
  | Identifier (id : Identifier)
  | Sign (parameters : List SignParameter) (return_data_type : Option DataType)
      (generics : List DataType) (whiches : List WhichEntry) (range : Location)
  | Tuple (elements : List Expression) (range : Location)

/-- The `MemberExpression` sum type (property access / indexing). -/
inductive MemberExpression where
  | Property (object : Expression) (property : Expression) (range : Location)
  | Index (object : Expression) (index : Expression) (range : Location)

/-- The `LetExpression` AST struct. -/
inductive LetExpression where
  | mk (data_type : Option DataType) (object : Expression) (value : Expression)
      (range : Location)

/-- The `BranchCase` AST struct. -/
inductive BranchCase where
  | mk (testing : Expression) (where_exp : Option Expression) (consequent : Expression)
      (range : Location)

/-- The `MatchCase` AST struct. -/
inductive MatchCase where
  | mk (variable_ : Option String) (pattern : Option PatternExpression)
      (only : Option Expression) (where_exp : Option Expression)
      (consequent : Expression) (range : Location)

/-- The `PatternExpression` sum type used inside match cases. -/
inductive PatternExpression where
  | Primary (e : Expression)
  | In (e : Expression)
  | Into (data_type : DataType) (name : String)
  | Regular (value : String) (tuple_elements : List Expression) (tuple_range : Location)
  | Template (value : String)

/-- The `MapEntry` AST struct. -/
inductive MapEntry where
  | mk (key : Expression) (value : Option Expression) (range : Location)

/-- The `Map` AST struct. -/
inductive Map where
  | mk (elements : List MapEntry) (range : Location)

/-- The `Argument` AST struct (function-call argument). -/
inductive Argument where
  | mk (name : Option String) (value : Expression) (range : Location)

/-- The `AnonymousParameter` AST struct. -/
inductive AnonymousParameter where
  | mk (data_type : Option DataType) (name : String) (range : Location)

/-- The `FunctionParameter` AST struct. -/
inductive FunctionParameter where
  | mk (data_type : DataType) (name : String) (value : Option Expression)
      (range : Location)

/-- The `SignParameter` AST struct. -/
inductive SignParameter where
  | mk (data_type : DataType) (name : Option String) (range : Location)

/-- The `WhichEntry` sum type (generic constraints). -/
inductive WhichEntry where
  | Limit (name : String) (data_types : List DataType) (range : Location)
  | Type' (name : String) (data_type : DataType) (range : Location)

end

/-- The `Statement` sum type of the AST. -/
inductive Statement where
  | FunctionDeclaration (name : String) (generics : List DataType)
      (parameters : List FunctionParameter) (return_data_type : Option DataType)
      (whiches : List WhichEntry) (body : Expression) (range : Location)
  | Expression (e : Expression)

/-- The root `Node` sum type of the AST. -/
inductive Node where
  | Program (body : List Statement) (range : Location)

/-- Mirrors `new_range` in `parser.rs`: a constant zero range. -/
def new_range : Location := { file_id := 0, start := 0, end_ := 0 }

/-!
Pure parser helpers (`parser.rs`, bottom of the file).
-/

/-- Mirrors `skip_new_lines`: drop leading `NewLine` tokens. -/
def skip_new_lines (source_token_details : List TokenDetail) : List TokenDetail :=
  match source_token_details with
  | first :: rest =>
    if first.token = Token.NewLine then skip_new_lines rest else source_token_details
  | [] => source_token_details

/-- Mirrors `is_token`: tests the next token. -/
def is_token (expected : Token) (source_token_details : List TokenDetail) : Bool :=
  match source_token_details with
  | first :: _ => first.token = expected
  | [] => false

/-- Mirrors `any_token`: tests the next token against a list. -/
def any_token (expecteds : List Token) (source_token_details : List TokenDetail) : Bool :=
  match source_token_details with
  | first :: _ => expecteds.any (fun t => t = first.token)
  | [] => false

/-- Mirrors `is_token_ignore_new_lines`. -/
def is_token_ignore_new_lines (expected : Token)
    (source_token_details : List TokenDetail) : Bool :=
  is_token expected (skip_new_lines source_token_details)

/-- Display form of a token, as interpolated into `consume_token` error
messages.  The `Display` impl lives in the out-of-scope `token.rs`; the
strings here are reconstructed from the `to_string` expectations in the
lexer's own test suite (`test_symbols_and_operators`, `test_keywords`, ...),
which pin down every variant used in the theorems below. -/
def token_display (t : Token) : String :=
  match t with
  | .NewLine => "\n"
  | .Slash => "/"
  | .LeftBrace => String.mk [lbrace_char]
  | .RightBrace => String.mk [rbrace_char]
  | .Equal => "=="
  | .Assign => "="
  | .GreaterThanOrEqual => ">="
  | .GreaterThan => ">"
  | .LogicOr => "||"
  | .Pipe => "|"
  | .LogicAnd => "&&"
  | .Combine => "&"
  | .NotEqual => "!="
  | .Exclamation => "!"
  | .LessThanOrEqual => "<="
  | .LessThan => "<"
  | .Concat => "++"
  | .Plus => "+"
  | .OptionalAnd => "->"
  | .Minus => "-"
  | .Asterisk => "*"
  | .OptionalOr => "??"
  | .Unwrap => "?"
  | .Cast => "^"
  | .At => "@"
  | .Ellipsis => "..."
  | .IntervalInclusive => "..="
  | .Interval => ".."
  | .Dot => "."
  | .LeftBracket => "["
  | .RightBracket => "]"
  | .LeftParen => "("
  | .RightParen => ")"
  | .Comma => ","
  | .Separator => "::"
  | .Colon => ":"
  | .Integer v => toString v
  | .Float _ => "<float>"
  | .Imaginary _ => "<imaginary>"
  | .Bit _ _ => "<bit>"
  | .Boolean v => if v then "true" else "false"
  | .Char c => String.mk [squote, c, squote]
  | .GeneralString s => "\"" ++ s ++ "\""
  | .TemplateString s => String.mk [backtick] ++ s ++ String.mk [backtick]
  | .HashString s => "#" ++ s
  | .NamedOperator s => ":" ++ s ++ ":"
  | .Attribute s => "#[" ++ s ++ "]"
  | .Identifier s => s
  | .Do => "do"
  | .Join => "join"
  | .Let => "let"
  | .Fn => "fn"
  | .Sign => "sign"
  | .If => "if"
  | .Then => "then"
  | .Else => "else"
  | .For => "for"
  | .Next => "next"
  | .Each => "each"
  | .In => "in"
  | .Branch => "branch"
  | .Match => "match"
  | .Case => "case"
  | .Default => "default"
  | .Where => "where"
  | .Only => "only"
  | .Into => "into"
  | .Regular => "regular"
  | .Template => "template"
  | .Function => "function"
  | .Type' => "type"
  | .Which => "which"
  | .Empty => "empty"
  | .Pattern => "pattern"
  | .Limit => "limit"
  | .Use => "use"
  | .Const => "const"
  | .Enum => "enum"
  | .Struct => "struct"
  | .Union => "union"
  | .Trait => "trait"
  | .Impl => "impl"
  | .Alias => "alias"

/-- Mirrors `consume_token`: consume one expected token or fail. -/
def consume_token (expected : Token) (source_token_details : List TokenDetail) :
    Res (List TokenDetail) :=
  match source_token_details with
  | first :: rest =>
    if first.token = expected then .ok rest
    else .error (.ParserError
      ("expected the specified symbol \"" ++ token_display expected ++ "\""))
  | [] => .error (.ParserError
      ("expected the specified symbol \"" ++ token_display expected ++ "\""))

/-- Mirrors `skip_new_lines_and_consume_token`. -/
def skip_new_lines_and_consume_token (expected : Token)
    (source_token_details : List TokenDetail) : Res (List TokenDetail) :=
  consume_token expected (skip_new_lines source_token_details)

/-- Mirrors `consume_new_line_or_end_of_file`. -/
def consume_new_line_or_end_of_file (source_token_details : List TokenDetail) :
    Res (List TokenDetail) :=
  match source_token_details with
  | first :: rest =>
    if first.token = Token.NewLine then .ok rest
    else .error (.ParserError "expected the new-line symbol")
  | [] => .ok source_token_details

/-- Mirrors `convert_expression_to_data_type`. -/
def convert_expression_to_data_type (exp : Expression) : Res DataType :=
  match exp with
  | .Identifier identifier => .ok (DataType.Identifier identifier)
  | .Sign p r g w rg => .ok (DataType.Sign p r g w rg)
  | .Tuple elements rg => .ok (DataType.Tuple elements rg)
  | _ => .error (.ParserError "invalid anonymous function parameter data type")

/-- Mirrors `is_valid_left_hand_side`: the check is a stub that accepts
every expression (`// todo:: 检查左手边的值是否符合语法`). -/
def is_valid_left_hand_side (_exp : Expression) : Bool :=
  true

/-- The `if !is_valid_left_hand_side(&lhs) { return Err(...) }` guard that
`parse_let_expression`, `parse_for_expression`, `parse_each_expression` and
`continue_parse_match_case` each inline, with their respective message. -/
def check_left_hand_side (msg : String) (lhs : Expression) (k : Res α) : Res α :=
  if is_valid_left_hand_side lhs then k
  else .error (.ParserError msg)

/-- Mirrors `continue_parse_imaginary`: the `Result<_, ()>` outcome becomes
an `Option`. -/
def continue_parse_imaginary (source_token_details : List TokenDetail) :
    Option (F64 × List TokenDetail) :=
  match source_token_details with
  | first :: rest =>
    if first.token = Token.Plus then
      match rest with
      | { token := Token.Imaginary f, .. } :: post_rest => some (f, post_rest)
      | _ => none
    else none
  | [] => none

/-- Name-path collection loop of `continue_parse_identifier`: after the first
identifier, consume `:: identifier` pairs. -/
def ident_names_loop (names : List String) (token_details : List TokenDetail) :
    Res (List String × List TokenDetail) :=
  match token_details with
  | first :: post_token_separator =>
    if first.token = Token.Separator then
      match post_token_separator with
      | { token := Token.Identifier name, .. } :: post_token_identifier =>
        ident_names_loop (names ++ [name]) post_token_identifier
      | _ => .error (.ParserError "expected identifier")
    else .ok (names, token_details)
  | [] => .ok (names, token_details)

/-- Mirrors `continue_parse_ellipsis`. -/
def continue_parse_ellipsis (source_token_details : List TokenDetail) :
    Res (Ellipsis × List TokenDetail) :=
  match consume_token Token.Ellipsis source_token_details with
  | .error e => .error e
  | .ok post_consume_token_ellipsis =>
    match post_consume_token_ellipsis with
    | { token := Token.Identifier name, .. } :: post_consume_token_identifier =>
      .ok ({ name := some name, range := new_range }, post_consume_token_identifier)
    | _ => .ok ({ name := none, range := new_range }, post_consume_token_ellipsis)

/-- Defunctionalized `next_parse_function` arguments of
`parse_binary_expression` / `parse_right_2_left_binary_expression`: the Rust
code passes these tier functions as `fn` pointers. -/
inductive NextParse where
  | logic_or
  | logic_and
  | equality
  | relational
  | named_operator
  | additive
  | multiplicative
  | optional_or
  | optional_and
  | combine
  | cast
deriving DecidableEq, Repr

/-- Mirrors `parse_literal` (non-recursive). -/
def parse_literal (source_token_details : List TokenDetail) :
    Res (Literal × List TokenDetail) :=
  match source_token_details with
  | first :: rest =>
    match first.token with
    | Token.Integer v =>
      match continue_parse_imaginary rest with
      | some (f, post_rest) =>
        .ok (Literal.Complex (f64_of_i64 v) f new_range, post_rest)
      | none => .ok (Literal.Integer v new_range, rest)
    | Token.Float v =>
      match continue_parse_imaginary rest with
      | some (f, post_rest) => .ok (Literal.Complex v f new_range, post_rest)
      | none => .ok (Literal.Float v new_range, rest)
    | Token.Imaginary v => .ok (Literal.Complex (f64_of_i64 0) v new_range, rest)
    | Token.Bit width bytes => .ok (Literal.Bit width bytes new_range, rest)
    | Token.Boolean v => .ok (Literal.Boolean v new_range, rest)
    | Token.Char v => .ok (Literal.Char v new_range, rest)
    | Token.GeneralString v => .ok (Literal.GeneralString v new_range, rest)
    | Token.TemplateString _ =>
      -- the placeholder re-tokenization is `todo!()` in the source
      .error (.Panic "not yet implemented")
    | Token.HashString v => .ok (Literal.HashString v new_range, rest)
    | Token.NamedOperator v => .ok (Literal.NamedOperator v new_range, rest)
    | _ => .error (.ParserError "invalid literal")
  | [] => .error (.ParserError "expected literal")

/-- Mirrors `parse_empty_function_declaration`, `todo!()` in the source. -/
def parse_empty_function_declaration (_ : List TokenDetail) :
    Res (Statement × List TokenDetail) :=
  .error (.Panic "not yet implemented")

/-- Mirrors `parse_pattern_function_declaration`, `todo!()` in the source. -/
def parse_pattern_function_declaration (_ : List TokenDetail) :
    Res (Statement × List TokenDetail) :=
  .error (.Panic "not yet implemented")

/-- Mirrors `parse_use_statement`, `todo!()` in the source. -/
def parse_use_statement (_ : List TokenDetail) : Res (Statement × List TokenDetail) :=
  .error (.Panic "not yet implemented")

/-- Mirrors `parse_const_statement`, `todo!()` in the source. -/
def parse_const_statement (_ : List TokenDetail) : Res (Statement × List TokenDetail) :=
  .error (.Panic "not yet implemented")

/-- Mirrors `parse_struct`, `todo!()` in the source. -/
def parse_struct (_ : List TokenDetail) : Res (Statement × List TokenDetail) :=
  .error (.Panic "not yet implemented")

/-- Mirrors `parse_union`, `todo!()` in the source. -/
def parse_union (_ : List TokenDetail) : Res (Statement × List TokenDetail) :=
  .error (.Panic "not yet implemented")

/-- Mirrors `parse_trait_declaration`, `todo!()` in the source. -/
def parse_trait_declaration (_ : List TokenDetail) : Res (Statement × List TokenDetail) :=
  .error (.Panic "not yet implemented")

/-- Mirrors `parse_impl_statement`, `todo!()` in the source. -/
def parse_impl_statement (_ : List TokenDetail) : Res (Statement × List TokenDetail) :=
  .error (.Panic "not yet implemented")

/-- Mirrors `parse_alias_statement`, `todo!()` in the source. -/
def parse_alias_statement (_ : List TokenDetail) : Res (Statement × List TokenDetail) :=
  .error (.Panic "not yet implemented")

mutual

/-- Mirrors `parse`: the parser entry point (up to fuel). -/
def parse (fuel : Nat) (source_token_details : List TokenDetail) : Res Node :=
  match fuel with
  | 0 => .error .Fuel
  | n + 1 => do
    let body ← parse_program n source_token_details
    .ok (Node.Program body new_range)

/-- Mirrors `parse_program`. -/
def parse_program (fuel : Nat) (source_token_details : List TokenDetail) :
    Res (List Statement) :=
  match fuel with
  | 0 => .error .Fuel
  | n + 1 => parse_program_loop n source_token_details []

/-- The statement loop of `parse_program`. -/
def parse_program_loop (fuel : Nat) (token_details : List TokenDetail)
    (statements : List Statement) : Res (List Statement) :=
  match fuel with
  | 0 => .error .Fuel
  | n + 1 =>
    let post_new_lines := skip_new_lines token_details
    match post_new_lines with
    | [] => .ok statements
    | _ => do
      let (statement, post_statement) ← parse_statement n post_new_lines
      parse_program_loop n post_statement (statements ++ [statement])

/-- Mirrors `parse_statement`.  The Rust code indexes
`&source_token_details[0]`, which panics on an empty slice (the caller
`parse_program` never passes one). -/
def parse_statement (fuel : Nat) (source_token_details : List TokenDetail) :
    Res (Statement × List TokenDetail) :=
  match fuel with
  | 0 => .error .Fuel
  | n + 1 =>
    match source_token_details with
    | [] => .error (.Panic "index out of bounds")
    | first :: _ =>
      match first.token with
      | Token.Function => parse_function_declaration n source_token_details
      | Token.Empty => parse_empty_function_declaration source_token_details
      | Token.Pattern => parse_pattern_function_declaration source_token_details
      | Token.Use => parse_use_statement source_token_details
      | Token.Const => parse_const_statement source_token_details
      | Token.Struct => parse_struct source_token_details
      | Token.Union => parse_union source_token_details
      | Token.Trait => parse_trait_declaration source_token_details
      | Token.Impl => parse_impl_statement source_token_details
      | Token.Alias => parse_alias_statement source_token_details
      | _ => parse_expression_statement n source_token_details

/-- Mirrors `parse_function_declaration`. -/
def parse_function_declaration (fuel : Nat) (source_token_details : List TokenDetail) :
    Res (Statement × List TokenDetail) :=
  match fuel with
  | 0 => .error .Fuel
  | n + 1 => do
    let td0 ← consume_token Token.Function source_token_details
    let td0 := skip_new_lines td0
    let (function_name, post_function_name) ← continue_parse_identifier n td0
    let td1 := skip_new_lines post_function_name
    let td2 ← consume_token Token.LeftParen td1
    let td2 := skip_new_lines td2
    let (parameters, td3) ← fn_params_loop n td2 [] false
    let td4 ← consume_token Token.RightParen td3
    let td4 := skip_new_lines td4
    let (return_data_type, whiches, td5) ← subordinates_loop n td4 none []
    let post_assignment ←
      if is_token Token.Assign td5 then do
        let t ← consume_token Token.Assign td5
        .ok (skip_new_lines t)
      else .ok td5
    let (body, post_body) ←
      continue_parse_expression_block_or_single_expression n post_assignment
    match function_name with
    | Identifier.mk _dirs name generics _rg =>
      .ok (Statement.FunctionDeclaration name generics parameters return_data_type
        whiches body new_range, post_body)

/-- The parameter-list loop of `parse_function_declaration`; stops (without
consuming) at the closing parenthesis. -/
def fn_params_loop (fuel : Nat) (token_details : List TokenDetail)
    (parameters : List FunctionParameter) (is_expected_end : Bool) :
    Res (List FunctionParameter × List TokenDetail) :=
  match fuel with
  | 0 => .error .Fuel
  | n + 1 =>
    match token_details with
    | [] => .error (.ParserError "expected the right paren symbol \")\"")
    | first :: _ =>
      if first.token = Token.RightParen then .ok (parameters, token_details)
      else if is_expected_end then
        .error (.ParserError "expected the right paren symbol \")\"")
      else do
        let (data_type_expression, post_data_type_expression) ←
          parse_expression n token_details
        let data_type ← convert_expression_to_data_type data_type_expression
        let (parameter_name, post_parameter_name) ←
          (match post_data_type_expression with
            | { token := Token.Identifier name, .. } :: rest => .ok (name, rest)
            | _ => .error (.ParserError "incomplete function parameter")
              : Res (String × List TokenDetail))
        let (default_value, post_default_value) ←
          if is_token Token.Assign post_parameter_name then do
            let t ← consume_token Token.Assign post_parameter_name
            let t := skip_new_lines t
            let (value, post_value) ← parse_expression n t
            .ok (some value, post_value)
          else .ok (none, post_parameter_name)
        let (post_consume_comma, flag) ←
          if is_token Token.Comma post_default_value then do
            let t ← consume_token Token.Comma post_default_value
            .ok (t, is_expected_end)
          else .ok (post_default_value, true)
        let post_consume_new_lines := skip_new_lines post_consume_comma
        fn_params_loop n post_consume_new_lines
          (parameters ++
            [FunctionParameter.mk data_type parameter_name default_value new_range])
          flag

/-- The shared `type` / `which` subordinate-expression loop used by
`parse_function_declaration`, `parse_anonymous_function` and
`parse_sign_expression` (identical in all three). -/
def subordinates_loop (fuel : Nat) (token_details : List TokenDetail)
    (return_data_type : Option DataType) (whiches : List WhichEntry) :
    Res (Option DataType × List WhichEntry × List TokenDetail) :=
  match fuel with
  | 0 => .error .Fuel
  | n + 1 =>
    match token_details with
    | t :: _ =>
      if t.token = Token.Type' then do
        let (data_type, post_data_type_expression) ←
          continue_parse_type_expression n token_details
        subordinates_loop n (skip_new_lines post_data_type_expression)
          (some data_type) whiches
      else if t.token = Token.Which then do
        let (which_entries, post_which_expression) ←
          continue_parse_which_expression n token_details
        subordinates_loop n (skip_new_lines post_which_expression)
          return_data_type which_entries
      else .ok (return_data_type, whiches, token_details)
    | [] => .ok (return_data_type, whiches, token_details)

/-- Mirrors `parse_expression_statement`. -/
def parse_expression_statement (fuel : Nat) (source_token_details : List TokenDetail) :
    Res (Statement × List TokenDetail) :=
  match fuel with
  | 0 => .error .Fuel
  | n + 1 => do
    let (expression, rest) ← parse_expression n source_token_details
    let post_rest ← consume_new_line_or_end_of_file rest
    .ok (Statement.Expression expression, post_rest)

/-- Mirrors `parse_expression`: keyword dispatch, then the binary chain. -/
def parse_expression (fuel : Nat) (source_token_details : List TokenDetail) :
    Res (Expression × List TokenDetail) :=
  match fuel with
  | 0 => .error .Fuel
  | n + 1 =>
    match source_token_details with
    | first :: _ =>
      match first.token with
      | Token.Do => parse_do_expression n source_token_details
      | Token.Join => parse_join_expression n source_token_details
      | Token.Let => parse_let_expression n source_token_details
      | Token.If => parse_if_expression n source_token_details
      | Token.For => parse_for_expression n source_token_details
      | Token.Next => parse_next_expression n source_token_details
      | Token.Each => parse_each_expression n source_token_details
      | Token.Branch => parse_branch_expression n source_token_details
      | Token.Match => parse_match_expression n source_token_details
      | _ => parse_pipe_expression n source_token_details
    | [] => .error (.ParserError "expected expression")

/-- Mirrors `parse_do_expression`. -/
def parse_do_expression (fuel : Nat) (source_token_details : List TokenDetail) :
    Res (Expression × List TokenDetail) :=
  match fuel with
  | 0 => .error .Fuel
  | n + 1 => do
    let post_consume_token_do ← consume_token Token.Do source_token_details
    let post_consume_new_lines := skip_new_lines post_consume_token_do
    let (expressions, post_expression_block) ←
      continue_parse_expression_block n post_consume_new_lines
    .ok (Expression.BlockExpression true expressions new_range, post_expression_block)

/-- Mirrors `continue_parse_expression_block`. -/
def continue_parse_expression_block (fuel : Nat)
    (source_token_details : List TokenDetail) :
    Res (List Expression × List TokenDetail) :=
  match fuel with
  | 0 => .error .Fuel
  | n + 1 => do
    let td ← consume_token Token.LeftBrace source_token_details
    let td := skip_new_lines td
    let (expressions, td2) ← expr_block_loop n td []
    let td3 ← consume_token Token.RightBrace td2
    .ok (expressions, td3)

/-- The expression loop of `continue_parse_expression_block`; stops (without
consuming) at the closing brace. -/
def expr_block_loop (fuel : Nat) (token_details : List TokenDetail)
    (expressions : List Expression) : Res (List Expression × List TokenDetail) :=
  match fuel with
  | 0 => .error .Fuel
  | n + 1 =>
    if is_token Token.RightBrace token_details then .ok (expressions, token_details)
    else do
      let (expression, post_expression) ← parse_expression n token_details
      let td ←
        if is_token Token.Comma post_expression then
          consume_token Token.Comma post_expression
        else .ok post_expression
      expr_block_loop n (skip_new_lines td) (expressions ++ [expression])

/-- Mirrors `continue_parse_expression_block_or_single_expression`. -/
def continue_parse_expression_block_or_single_expression (fuel : Nat)
    (source_token_details : List TokenDetail) : Res (Expression × List TokenDetail) :=
  match fuel with
  | 0 => .error .Fuel
  | n + 1 =>
    match source_token_details with
    | first :: _ =>
      if first.token = Token.LeftBrace then do
        let (expressions, post_expression_block) ←
          continue_parse_expression_block n source_token_details
        .ok (Expression.BlockExpression false expressions new_range,
          post_expression_block)
      else parse_expression n source_token_details
    | [] => .error (.ParserError "expected an expression or an expression block")

/-- Mirrors `parse_join_expression`. -/
def parse_join_expression (fuel : Nat) (source_token_details : List TokenDetail) :
    Res (Expression × List TokenDetail) :=
  match fuel with
  | 0 => .error .Fuel
  | n + 1 => do
    let td ← consume_token Token.Join source_token_details
    let td := skip_new_lines td
    let (expressions, post_expression_block) ← continue_parse_expression_block n td
    .ok (Expression.JoinExpression expressions new_range, post_expression_block)

/-- Mirrors `parse_let_expression`. -/
def parse_let_expression (fuel : Nat) (source_token_details : List TokenDetail) :
    Res (Expression × List TokenDetail) :=
  match fuel with
  | 0 => .error .Fuel
  | n + 1 => do
    let td ← consume_token Token.Let source_token_details
    let td := skip_new_lines td
    let (maybe_lhs, post_maybe_lhs) ← parse_mono_expression n td
    let (data_type, lhs, td2) ←
      if is_token Token.Assign post_maybe_lhs then
        (.ok (none, maybe_lhs, post_maybe_lhs) :
          Res (Option DataType × Expression × List TokenDetail))
      else do
        let data_type ← convert_expression_to_data_type maybe_lhs
        let (lhs, post_lhs) ← parse_primary_expression n post_maybe_lhs
        .ok (some data_type, lhs, post_lhs)
    check_left_hand_side "invalid left-hand-side value" lhs (do
      let td3 := skip_new_lines td2
      let td4 ← consume_token Token.Assign td3
      let td4 := skip_new_lines td4
      let (rhs, post_rhs) ← parse_expression n td4
      .ok (Expression.LetExpression
        (LetExpression.mk data_type lhs rhs new_range), post_rhs))

/-- Mirrors `parse_if_expression`. -/
def parse_if_expression (fuel : Nat) (source_token_details : List TokenDetail) :
    Res (Expression × List TokenDetail) :=
  match fuel with
  | 0 => .error .Fuel
  | n + 1 => do
    let td ← consume_token Token.If source_token_details
    let td := skip_new_lines td
    let (testing, post_testing) ← parse_expression n td
    let td2 := skip_new_lines post_testing
    let (where_exp, td3) ←
      if is_token Token.Where td2 then do
        let (where_exp, post_where_expression) ←
          continue_parse_where_expression n td2
        .ok (some where_exp, post_where_expression)
      else
        (.ok (none, td2) : Res (Option Expression × List TokenDetail))
    let td4 ← skip_new_lines_and_consume_token Token.Then td3
    let td4 := skip_new_lines td4
    let (consequent, post_consequent) ←
      continue_parse_expression_block_or_single_expression n td4
    let (alternate, td5) ←
      if is_token_ignore_new_lines Token.Else post_consequent then do
        let t ← skip_new_lines_and_consume_token Token.Else post_consequent
        let t := skip_new_lines t
        let (alternate, post_alternate) ←
          continue_parse_expression_block_or_single_expression n t
        .ok (some alternate, post_alternate)
      else
        (.ok (none, post_consequent) : Res (Option Expression × List TokenDetail))
    .ok (Expression.IfExpression testing where_exp consequent alternate new_range, td5)

/-- Mirrors `continue_parse_where_expression`. -/
def continue_parse_where_expression (fuel : Nat)
    (source_token_details : List TokenDetail) : Res (Expression × List TokenDetail) :=
  match fuel with
  | 0 => .error .Fuel
  | n + 1 => do
    let td ← consume_token Token.Where source_token_details
    let td := skip_new_lines td
    continue_parse_expression_block_or_single_expression n td

/-- Mirrors `parse_for_expression`, including the `identifier {` lookahead on
the right-hand value (a failed speculative `continue_parse_identifier` falls
through to `parse_expression`; a panic propagates). -/
def parse_for_expression (fuel : Nat) (source_token_details : List TokenDetail) :
    Res (Expression × List TokenDetail) :=
  match fuel with
  | 0 => .error .Fuel
  | n + 1 => do
    let td ← consume_token Token.For source_token_details
    let td := skip_new_lines td
    let td2 ← consume_token Token.Let td
    let td2 := skip_new_lines td2
    let (maybe_lhs, post_maybe_lhs) ← parse_mono_expression n td2
    let (data_type, lhs, td3) ←
      if is_token Token.Assign post_maybe_lhs then
        (.ok (none, maybe_lhs, post_maybe_lhs) :
          Res (Option DataType × Expression × List TokenDetail))
      else do
        let data_type ← convert_expression_to_data_type maybe_lhs
        let (lhs, post_lhs) ← parse_primary_expression n post_maybe_lhs
        .ok (some data_type, lhs, post_lhs)
    check_left_hand_side "invalid left-hand-side value" lhs (do
      let td4 := skip_new_lines td3
      let td5 ← consume_token Token.Assign td4
      let td5 := skip_new_lines td5
      let (rhs, post_rhs) ←
        (match continue_parse_identifier n td5 with
          | .ok (maybe_identifier, post_maybe_identifier) =>
            if is_token Token.LeftBrace post_maybe_identifier then
              .ok (Expression.Identifier maybe_identifier, post_maybe_identifier)
            else parse_expression n td5
          | .error (.Panic m) => .error (.Panic m)
          | .error .Fuel => .error .Fuel
          | .error _ => parse_expression n td5
          : Res (Expression × List TokenDetail))
      let let_expression := LetExpression.mk data_type lhs rhs new_range
      let td6 := skip_new_lines post_rhs
      let (body_exp, post_body_exp) ←
        continue_parse_expression_block_or_single_expression n td6
      .ok (Expression.ForExpression let_expression body_exp new_range, post_body_exp))

/-- Mirrors `parse_next_expression`. -/
def parse_next_expression (fuel : Nat) (source_token_details : List TokenDetail) :
    Res (Expression × List TokenDetail) :=
  match fuel with
  | 0 => .error .Fuel
  | n + 1 => do
    let td ← consume_token Token.Next source_token_details
    let td := skip_new_lines td
    let (expression, post_expression) ← parse_expression n td
    .ok (Expression.NextExpression expression new_range, post_expression)

/-- Mirrors `parse_each_expression`, with the same right-hand `identifier {`
lookahead as `parse_for_expression`. -/
def parse_each_expression (fuel : Nat) (source_token_details : List TokenDetail) :
    Res (Expression × List TokenDetail) :=
  match fuel with
  | 0 => .error .Fuel
  | n + 1 => do
    let td ← consume_token Token.Each source_token_details
    let td := skip_new_lines td
    let (variable_, post_variable) ← parse_mono_expression n td
    check_left_hand_side "invalid left-hand-side value" variable_ (do
      let td2 := skip_new_lines post_variable
      let td3 ← consume_token Token.In td2
      let td3 := skip_new_lines td3
      let (object, post_object) ←
        (match continue_parse_identifier n td3 with
          | .ok (maybe_identifier, post_maybe_identifier) =>
            if is_token Token.LeftBrace post_maybe_identifier then
              .ok (Expression.Identifier maybe_identifier, post_maybe_identifier)
            else parse_expression n td3
          | .error (.Panic m) => .error (.Panic m)
          | .error .Fuel => .error .Fuel
          | .error _ => parse_expression n td3
          : Res (Expression × List TokenDetail))
      let td4 := skip_new_lines post_object
      let (body_exp, post_body_exp) ←
        continue_parse_expression_block_or_single_expression n td4
      .ok (Expression.EachExpression variable_ object body_exp new_range,
        post_body_exp))

/-- Mirrors `parse_branch_expression`. -/
def parse_branch_expression (fuel : Nat) (source_token_details : List TokenDetail) :
    Res (Expression × List TokenDetail) :=
  match fuel with
  | 0 => .error .Fuel
  | n + 1 => do
    let td ← consume_token Token.Branch source_token_details
    let td := skip_new_lines td
    let (where_exp, td2) ←
      if is_token Token.Where td then do
        let (where_exp, post_where_expression) ← continue_parse_where_expression n td
        .ok (some where_exp, skip_new_lines post_where_expression)
      else
        (.ok (none, td) : Res (Option Expression × List TokenDetail))
    let td3 ← consume_token Token.LeftBrace td2
    let td3 := skip_new_lines td3
    let (cases, default_exp, td4) ← branch_cases_loop n td3 [] none false
    let td5 ← consume_token Token.RightBrace td4
    .ok (Expression.BranchExpression where_exp cases default_exp new_range, td5)

/-- The case/default loop of `parse_branch_expression`; stops (without
consuming) at the closing brace.  Once `default` has been seen
(`is_expected_end`), any further non-`}` token is a parse error. -/
def branch_cases_loop (fuel : Nat) (token_details : List TokenDetail)
    (cases : List BranchCase) (default_exp : Option Expression)
    (is_expected_end : Bool) :
    Res (List BranchCase × Option Expression × List TokenDetail) :=
  match fuel with
  | 0 => .error .Fuel
  | n + 1 =>
    match token_details with
    | [] => .error (.ParserError "expected the right brace symbol \"\x7d\"")
    | first :: _ =>
      if first.token = Token.RightBrace then .ok (cases, default_exp, token_details)
      else if is_expected_end then
        .error (.ParserError "expected the right brace symbol \"\x7d\"")
      else if is_token Token.Case token_details then do
        let (case_exp, post_case_exp) ← continue_parse_branch_case n token_details
        let post_comma ←
          if is_token Token.Comma post_case_exp then
            consume_token Token.Comma post_case_exp
          else .ok post_case_exp
        branch_cases_loop n (skip_new_lines post_comma) (cases ++ [case_exp])
          default_exp is_expected_end
      else if is_token Token.Default token_details then do
        let (expression, post_default_exp) ← continue_parse_default_case n token_details
        let post_comma ←
          if is_token Token.Comma post_default_exp then
            consume_token Token.Comma post_default_exp
          else .ok post_default_exp
        branch_cases_loop n (skip_new_lines post_comma) cases (some expression) true
      else .error (.ParserError "invalid branch expression")

/-- Mirrors `continue_parse_branch_case`. -/
def continue_parse_branch_case (fuel : Nat) (source_token_details : List TokenDetail) :
    Res (BranchCase × List TokenDetail) :=
  match fuel with
  | 0 => .error .Fuel
  | n + 1 => do
    let td ← consume_token Token.Case source_token_details
    let td := skip_new_lines td
    let (testing_exp, post_testing) ← parse_expression n td
    let td2 := skip_new_lines post_testing
    let (where_exp, td3) ←
      if is_token Token.Where td2 then do
        let (expression, post_where_expression) ←
          continue_parse_where_expression n td2
        .ok (some expression, post_where_expression)
      else
        (.ok (none, td2) : Res (Option Expression × List TokenDetail))
    let td4 := skip_new_lines td3
    let td5 ← consume_token Token.Colon td4
    let (consequent_exp, post_consequent) ←
      continue_parse_expression_block_or_single_expression n td5
    .ok (BranchCase.mk testing_exp where_exp consequent_exp new_range, post_consequent)

/-- Mirrors `continue_parse_default_case`. -/
def continue_parse_default_case (fuel : Nat)
    (source_token_details : List TokenDetail) : Res (Expression × List TokenDetail) :=
  match fuel with
  | 0 => .error .Fuel
  | n + 1 => do
    let td ← consume_token Token.Default source_token_details
    let td2 ← consume_token Token.Colon td
    let td2 := skip_new_lines td2
    continue_parse_expression_block_or_single_expression n td2

/-- Mirrors `parse_match_expression`, with the subject `identifier {`
lookahead shared with `for` / `each`. -/
def parse_match_expression (fuel : Nat) (source_token_details : List TokenDetail) :
    Res (Expression × List TokenDetail) :=
  match fuel with
  | 0 => .error .Fuel
  | n + 1 => do
    let td ← consume_token Token.Match source_token_details
    let td := skip_new_lines td
    let (object, post_object) ←
      (match continue_parse_identifier n td with
        | .ok (maybe_identifier, post_maybe_identifier) =>
          if is_token Token.LeftBrace post_maybe_identifier then
            .ok (Expression.Identifier maybe_identifier, post_maybe_identifier)
          else parse_expression n td
        | .error (.Panic m) => .error (.Panic m)
        | .error .Fuel => .error .Fuel
        | .error _ => parse_expression n td
        : Res (Expression × List TokenDetail))
    let td2 := skip_new_lines post_object
    let (where_exp, td3) ←
      if is_token Token.Where td2 then do
        let (where_exp, post_where_expression) ←
          continue_parse_where_expression n td2
        .ok (some where_exp, skip_new_lines post_where_expression)
      else
        (.ok (none, td2) : Res (Option Expression × List TokenDetail))
    let td4 ← consume_token Token.LeftBrace td3
    let td4 := skip_new_lines td4
    let (cases, default_exp, td5) ← match_cases_loop n td4 [] none false
    let td6 ← consume_token Token.RightBrace td5
    .ok (Expression.MatchExpression object where_exp cases default_exp new_range, td6)

/-- The case/default loop of `parse_match_expression`; same discipline as
`branch_cases_loop`. -/
def match_cases_loop (fuel : Nat) (token_details : List TokenDetail)
    (cases : List MatchCase) (default_exp : Option Expression)
    (is_expected_end : Bool) :
    Res (List MatchCase × Option Expression × List TokenDetail) :=
  match fuel with
  | 0 => .error .Fuel
  | n + 1 =>
    match token_details with
    | [] => .error (.ParserError "expected the right brace symbol \"\x7d\"")
    | first :: _ =>
      if first.token = Token.RightBrace then .ok (cases, default_exp, token_details)
      else if is_expected_end then
        .error (.ParserError "expected the right brace symbol \"\x7d\"")
      else if is_token Token.Case token_details then do
        let (case_exp, post_case_exp) ← continue_parse_match_case n token_details
        let post_comma ←
          if is_token Token.Comma post_case_exp then
            consume_token Token.Comma post_case_exp
          else .ok post_case_exp
        match_cases_loop n (skip_new_lines post_comma) (cases ++ [case_exp])
          default_exp is_expected_end
      else if is_token Token.Default token_details then do
        let (expression, post_default_exp) ← continue_parse_default_case n token_details
        let post_comma ←
          if is_token Token.Comma post_default_exp then
            consume_token Token.Comma post_default_exp
          else .ok post_default_exp
        match_cases_loop n (skip_new_lines post_comma) cases (some expression) true
      else .error (.ParserError "invalid match expression")

/-- Mirrors `continue_parse_match_case`: optional `name @` variable prefix
(found by a speculative primary-expression parse whose failure is
discarded), one of the five pattern forms, optional `only` / `where`
clauses, then `:` and the consequent. -/
def continue_parse_match_case (fuel : Nat) (source_token_details : List TokenDetail) :
    Res (MatchCase × List TokenDetail) :=
  match fuel with
  | 0 => .error .Fuel
  | n + 1 => do
    let td ← consume_token Token.Case source_token_details
    let td := skip_new_lines td
    if any_token [Token.Only, Token.Where] td then
      .error (.ParserError "invalid match case expression")
    else do
      let (variable_, td2) ←
        (if any_token [Token.In, Token.Into, Token.Regular, Token.Template] td then
          .ok (none, td)
        else
          match parse_primary_expression n td with
          | .ok (Expression.Identifier (Identifier.mk _ name _ _), post_identifier) =>
            if is_token Token.At post_identifier then do
              let t ← consume_token Token.At post_identifier
              .ok (some name, skip_new_lines t)
            else .ok (none, td)
          | .ok _ => .ok (none, td)
          | .error (.Panic m) => .error (.Panic m)
          | .error .Fuel => .error .Fuel
          | .error _ => .ok (none, td)
          : Res (Option String × List TokenDetail))
      let (pattern, td3) ←
        (match td2 with
        | [] => .ok (none, td2)
        | first :: _ =>
          match first.token with
          | Token.Only => .ok (none, td2)
          | Token.Where => .ok (none, td2)
          | Token.Colon => .ok (none, td2)
          | Token.In => do
            let t ← consume_token Token.In td2
            let t := skip_new_lines t
            let (object, post_object) ← parse_primary_expression n t
            .ok (some (PatternExpression.In object), post_object)
          | Token.Into => do
            let t ← consume_token Token.Into td2
            let t := skip_new_lines t
            let (data_type_expression, post_data_type_expression) ←
              parse_primary_expression n t
            let data_type ← convert_expression_to_data_type data_type_expression
            let (identifier_expression, post_identifier_expression) ←
              parse_primary_expression n post_data_type_expression
            match identifier_expression with
            | Expression.Identifier (Identifier.mk _ name _ _) =>
              .ok (some (PatternExpression.Into data_type name),
                post_identifier_expression)
            | _ => .error (.ParserError "invalid into pattern expression")
          | Token.Regular => do
            let t ← consume_token Token.Regular td2
            let t := skip_new_lines t
            let (s, post_regular_string) ← parse_primary_expression n t
            let regular_string ←
              (match s with
                | Expression.Literal (Literal.GeneralString value _) => .ok value
                | Expression.Literal (Literal.TemplateString fragments expressions _) =>
                  if expressions.length > 0 then
                    .error (.ParserError "invalid regular string")
                  else .ok (String.join fragments)
                | _ => .error (.ParserError "invalid regular pattern expression")
                : Res String)
            let t2 := skip_new_lines post_regular_string
            let (tuple_expression, post_tuple_expression) ←
              parse_primary_expression n t2
            match tuple_expression with
            | Expression.Tuple elements rg =>
              .ok (some (PatternExpression.Regular regular_string elements rg),
                post_tuple_expression)
            | _ => .error (.ParserError "invalid regular pattern expression")
          | Token.Template => do
            let t ← consume_token Token.Template td2
            let t := skip_new_lines t
            let (s, post_template_string) ← parse_primary_expression n t
            let template_string ←
              (match s with
                | Expression.Literal (Literal.GeneralString value _) => .ok value
                | Expression.Literal (Literal.TemplateString fragments expressions _) =>
                  if expressions.length > 0 then
                    .error (.ParserError "invalid template string")
                  else .ok (String.join fragments)
                | _ => .error (.ParserError "invalid template pattern expression")
                : Res String)
            .ok (some (PatternExpression.Template template_string),
              post_template_string)
          | _ => do
            let (lhs, post_lhs) ← parse_mono_expression n td2
            check_left_hand_side "invalid pattern expression" lhs
              (.ok (some (PatternExpression.Primary lhs), post_lhs))
          : Res (Option PatternExpression × List TokenDetail))
      let td4 := skip_new_lines td3
      let (only, where_exp, td5) ← match_case_subordinates_loop n td4 none none
      let td6 ← consume_token Token.Colon td5
      let (consequent_exp, post_consequent) ←
        continue_parse_expression_block_or_single_expression n td6
      .ok (MatchCase.mk variable_ pattern only where_exp consequent_exp new_range,
        post_consequent)

/-- The `only` / `where` subordinate loop of `continue_parse_match_case`. -/
def match_case_subordinates_loop (fuel : Nat) (token_details : List TokenDetail)
    (only : Option Expression) (where_exp : Option Expression) :
    Res (Option Expression × Option Expression × List TokenDetail) :=
  match fuel with
  | 0 => .error .Fuel
  | n + 1 =>
    match token_details with
    | t :: _ =>
      if t.token = Token.Only then do
        let (exp, post_only_expression) ← continue_parse_only_expression n token_details
        match_case_subordinates_loop n (skip_new_lines post_only_expression)
          (some exp) where_exp
      else if t.token = Token.Where then do
        let (exp, post_where_expression) ←
          continue_parse_where_expression n token_details
        match_case_subordinates_loop n (skip_new_lines post_where_expression)
          only (some exp)
      else .ok (only, where_exp, token_details)
    | [] => .ok (only, where_exp, token_details)

/-- Mirrors `continue_parse_only_expression`. -/
def continue_parse_only_expression (fuel : Nat)
    (source_token_details : List TokenDetail) : Res (Expression × List TokenDetail) :=
  match fuel with
  | 0 => .error .Fuel
  | n + 1 => do
    let td ← consume_token Token.Only source_token_details
    let td := skip_new_lines td
    continue_parse_expression_block_or_single_expression n td

/-- Mirrors `continue_parse_generic_names`. -/
def continue_parse_generic_names (fuel : Nat)
    (source_token_details : List TokenDetail) :
    Res (List DataType × List TokenDetail) :=
  match fuel with
  | 0 => .error .Fuel
  | n + 1 => do
    let td ← consume_token Token.LessThan source_token_details
    let td := skip_new_lines td
    let (generics, td2) ← generic_names_loop n td [] false
    let td3 ← consume_token Token.GreaterThan td2
    .ok (generics, td3)

/-- The type-list loop of `continue_parse_generic_names`; stops (without
consuming) at the closing `>`. -/
def generic_names_loop (fuel : Nat) (token_details : List TokenDetail)
    (generics : List DataType) (is_expected_end : Bool) :
    Res (List DataType × List TokenDetail) :=
  match fuel with
  | 0 => .error .Fuel
  | n + 1 =>
    match token_details with
    | [] => .error (.ParserError "expected the right angle bracket symbol \">\"")
    | first :: _ =>
      if first.token = Token.GreaterThan then .ok (generics, token_details)
      else if is_expected_end then
        .error (.ParserError "expected the right angle bracket symbol \">\"")
      else do
        let (data_type_expression, post_primary_expression) ←
          parse_primary_expression n token_details
        let data_type ← convert_expression_to_data_type data_type_expression
        let (post_comma, flag) ←
          if is_token Token.Comma post_primary_expression then do
            let t ← consume_token Token.Comma post_primary_expression
            .ok (t, is_expected_end)
          else .ok (post_primary_expression, true)
        generic_names_loop n (skip_new_lines post_comma) (generics ++ [data_type]) flag

/-- Mirrors `continue_parse_type_expression`. -/
def continue_parse_type_expression (fuel : Nat)
    (source_token_details : List TokenDetail) : Res (DataType × List TokenDetail) :=
  match fuel with
  | 0 => .error .Fuel
  | n + 1 => do
    let post_type_token ← consume_token Token.Type' source_token_details
    let post_new_lines := skip_new_lines post_type_token
    let (data_type_expression, post_data_type_expression) ←
      parse_primary_expression n post_new_lines
    let data_type ← convert_expression_to_data_type data_type_expression
    .ok (data_type, post_data_type_expression)

/-- Mirrors `continue_parse_which_expression`. -/
def continue_parse_which_expression (fuel : Nat)
    (source_token_details : List TokenDetail) :
    Res (List WhichEntry × List TokenDetail) :=
  match fuel with
  | 0 => .error .Fuel
  | n + 1 => do
    let td ← consume_token Token.Which source_token_details
    let td := skip_new_lines td
    match td with
    | maybe_left_brace :: _ =>
      if maybe_left_brace.token = Token.LeftBrace then do
        let td2 ← consume_token Token.LeftBrace td
        let td2 := skip_new_lines td2
        let (entries, td3) ← which_entries_loop n td2 [] false
        let td4 ← consume_token Token.RightBrace td3
        .ok (entries, td4)
      else do
        let (entry, post_entry) ← continue_parse_which_entry n td
        .ok ([entry], post_entry)
    | [] => .error (.ParserError "expected \"which\" expression")

/-- The entry loop of `continue_parse_which_expression`; stops (without
consuming) at the closing brace. -/
def which_entries_loop (fuel : Nat) (token_details : List TokenDetail)
    (entries : List WhichEntry) (is_expected_end : Bool) :
    Res (List WhichEntry × List TokenDetail) :=
  match fuel with
  | 0 => .error .Fuel
  | n + 1 =>
    match token_details with
    | [] => .error (.ParserError "expected the right brace symbol \"\x7d\"")
    | maybe_right_brace :: _ =>
      if maybe_right_brace.token = Token.RightBrace then .ok (entries, token_details)
      else if is_expected_end then
        .error (.ParserError "expected the right brace symbol \"\x7d\"")
      else do
        let (entry, post_entry) ← continue_parse_which_entry n token_details
        let (post_consume_comma, flag) :=
          match post_entry with
          | first :: rest =>
            if first.token = Token.Comma then (rest, is_expected_end)
            else if first.token = Token.NewLine then (post_entry, is_expected_end)
            else (post_entry, true)
          | [] => (post_entry, true)
        which_entries_loop n (skip_new_lines post_consume_comma)
          (entries ++ [entry]) flag

/-- Mirrors `continue_parse_which_entry`. -/
def continue_parse_which_entry (fuel : Nat) (source_token_details : List TokenDetail) :
    Res (WhichEntry × List TokenDetail) :=
  match fuel with
  | 0 => .error .Fuel
  | n + 1 =>
    match source_token_details with
    | { token := Token.Identifier name, .. } :: post_name => do
      let post_colon ← consume_token Token.Colon post_name
      let post_new_lines_after_colon := skip_new_lines post_colon
      match post_new_lines_after_colon with
      | maybe_token_limit :: post_limit =>
        if maybe_token_limit.token = Token.Limit then do
          let post_new_lines_after_limit := skip_new_lines post_limit
          let (data_types, post_data_type_list) ←
            which_entry_data_type_list_loop n post_new_lines_after_limit []
          .ok (WhichEntry.Limit name data_types new_range, post_data_type_list)
        else do
          let (data_type_expression, post_data_type_expression) ←
            parse_primary_expression n post_new_lines_after_colon
          let data_type ← convert_expression_to_data_type data_type_expression
          .ok (WhichEntry.Type' name data_type new_range, post_data_type_expression)
      | [] => .error (.ParserError "expected which expression entry value")
    | _ => .error (.ParserError "invalid name of which expression entry")

/-- Mirrors `continue_parse_which_entry_data_type_list` (the `+`-separated
type list after `limit`). -/
def which_entry_data_type_list_loop (fuel : Nat) (token_details : List TokenDetail)
    (data_types : List DataType) : Res (List DataType × List TokenDetail) :=
  match fuel with
  | 0 => .error .Fuel
  | n + 1 => do
    let (data_type_expression, post_data_type_expression) ←
      parse_primary_expression n token_details
    let data_type ← convert_expression_to_data_type data_type_expression
    if is_token Token.Plus post_data_type_expression then do
      let post_plus ← consume_token Token.Plus post_data_type_expression
      let post_new_lines := skip_new_lines post_plus
      which_entry_data_type_list_loop n post_new_lines (data_types ++ [data_type])
    else .ok (data_types ++ [data_type], post_data_type_expression)

/-- Dispatch of the defunctionalized `next_parse_function` pointers: the Rust
generic binary-expression parsers receive these tier functions as `fn`
arguments. -/
def call_next_parse (fuel : Nat) (next : NextParse)
    (source_token_details : List TokenDetail) : Res (Expression × List TokenDetail) :=
  match fuel with
  | 0 => .error .Fuel
  | n + 1 =>
    match next with
    | .logic_or => parse_logic_or_expression n source_token_details
    | .logic_and => parse_logic_and_expression n source_token_details
    | .equality => parse_equality_expression n source_token_details
    | .relational => parse_relational_expression n source_token_details
    | .named_operator => parse_named_operator_expression n source_token_details
    | .additive => parse_additive_expression n source_token_details
    | .multiplicative => parse_multiplicative_expression n source_token_details
    | .optional_or => parse_optional_or_expression n source_token_details
    | .optional_and => parse_optional_and_expression n source_token_details
    | .combine => parse_combine_expression n source_token_details
    | .cast => parse_cast_expression n source_token_details

/-- Mirrors `parse_binary_expression` (the generic left-associative
precedence-climbing worker). -/
def parse_binary_expression (fuel : Nat) (operator_tokens : List Token)
    (next_parse_function : NextParse) (source_token_details : List TokenDetail) :
    Res (Expression × List TokenDetail) :=
  match fuel with
  | 0 => .error .Fuel
  | n + 1 => do
    let (left, post_left_expression) ←
      call_next_parse n next_parse_function source_token_details
    binary_fold_loop n operator_tokens next_parse_function left post_left_expression

/-- The fold loop of `parse_binary_expression`: while the next token is one
of this tier's operators, consume it and fold a left-associated node. -/
def binary_fold_loop (fuel : Nat) (operator_tokens : List Token)
    (next_parse_function : NextParse) (left : Expression)
    (token_details : List TokenDetail) : Res (Expression × List TokenDetail) :=
  match fuel with
  | 0 => .error .Fuel
  | n + 1 =>
    match token_details with
    | [] => .ok (left, token_details)
    | first :: _ =>
      match operator_tokens.find? (fun t => t == first.token) with
      | none => .ok (left, token_details)
      | some operator_token => do
        let post_consume_token_operator ← consume_token operator_token token_details
        let post_consume_new_lines := skip_new_lines post_consume_token_operator
        let (right, post_right_expression) ←
          call_next_parse n next_parse_function post_consume_new_lines
        binary_fold_loop n operator_tokens next_parse_function
          (Expression.BinaryExpression operator_token left right new_range)
          post_right_expression

/-- Mirrors `parse_right_2_left_binary_expression`: at most one application,
with the right-hand side parsed by the full expression grammar. -/
def parse_right_2_left_binary_expression (fuel : Nat) (operator_token : Token)
    (next_parse_function : NextParse) (source_token_details : List TokenDetail) :
    Res (Expression × List TokenDetail) :=
  match fuel with
  | 0 => .error .Fuel
  | n + 1 => do
    let (left, post_left_expression) ←
      call_next_parse n next_parse_function source_token_details
    if is_token operator_token post_left_expression then do
      let post_consume_token_operator ←
        consume_token operator_token post_left_expression
      let pose_consume_new_lines := skip_new_lines post_consume_token_operator
      let (right, post_right_expression) ← parse_expression n pose_consume_new_lines
      .ok (Expression.BinaryExpression operator_token left right new_range,
        post_right_expression)
    else .ok (left, post_left_expression)

/-- Mirrors `parse_pipe_expression`. -/
def parse_pipe_expression (fuel : Nat) (source_token_details : List TokenDetail) :
    Res (Expression × List TokenDetail) :=
  match fuel with
  | 0 => .error .Fuel
  | n + 1 =>
    parse_binary_expression n [Token.Pipe] .logic_or source_token_details

/-- Mirrors `parse_logic_or_expression`. -/
def parse_logic_or_expression (fuel : Nat) (source_token_details : List TokenDetail) :
    Res (Expression × List TokenDetail) :=
  match fuel with
  | 0 => .error .Fuel
  | n + 1 =>
    parse_binary_expression n [Token.LogicOr] .logic_and source_token_details

/-- Mirrors `parse_logic_and_expression`. -/
def parse_logic_and_expression (fuel : Nat) (source_token_details : List TokenDetail) :
    Res (Expression × List TokenDetail) :=
  match fuel with
  | 0 => .error .Fuel
  | n + 1 =>
    parse_binary_expression n [Token.LogicAnd] .equality source_token_details

/-- Mirrors `parse_equality_expression`. -/
def parse_equality_expression (fuel : Nat) (source_token_details : List TokenDetail) :
    Res (Expression × List TokenDetail) :=
  match fuel with
  | 0 => .error .Fuel
  | n + 1 =>
    parse_binary_expression n [Token.Equal, Token.NotEqual] .relational
      source_token_details

/-- Mirrors `parse_relational_expression`. -/
def parse_relational_expression (fuel : Nat)
    (source_token_details : List TokenDetail) : Res (Expression × List TokenDetail) :=
  match fuel with
  | 0 => .error .Fuel
  | n + 1 =>
    parse_binary_expression n
      [Token.GreaterThan, Token.GreaterThanOrEqual, Token.LessThan,
        Token.LessThanOrEqual]
      .named_operator source_token_details

/-- Mirrors `parse_named_operator_expression`: a single (non-folded)
left-associative application of a `:name:` operator. -/
def parse_named_operator_expression (fuel : Nat)
    (source_token_details : List TokenDetail) : Res (Expression × List TokenDetail) :=
  match fuel with
  | 0 => .error .Fuel
  | n + 1 => do
    let (left, post_left_expression) ← parse_concat_expression n source_token_details
    match post_left_expression with
    | { token := Token.NamedOperator v, .. } :: _ => do
      let post_consume_token_operator ←
        consume_token (Token.NamedOperator v) post_left_expression
      let pose_consume_new_lines := skip_new_lines post_consume_token_operator
      let (right, post_right_expression) ←
        parse_concat_expression n pose_consume_new_lines
      .ok (Expression.BinaryExpression (Token.NamedOperator v) left right new_range,
        post_right_expression)
    | _ => .ok (left, post_left_expression)

/-- Mirrors `parse_concat_expression`. -/
def parse_concat_expression (fuel : Nat) (source_token_details : List TokenDetail) :
    Res (Expression × List TokenDetail) :=
  match fuel with
  | 0 => .error .Fuel
  | n + 1 =>
    parse_binary_expression n [Token.Concat] .additive source_token_details

/-- Mirrors `parse_additive_expression`. -/
def parse_additive_expression (fuel : Nat) (source_token_details : List TokenDetail) :
    Res (Expression × List TokenDetail) :=
  match fuel with
  | 0 => .error .Fuel
  | n + 1 =>
    parse_binary_expression n [Token.Plus, Token.Minus] .multiplicative
      source_token_details

/-- Mirrors `parse_multiplicative_expression`. -/
def parse_multiplicative_expression (fuel : Nat)
    (source_token_details : List TokenDetail) : Res (Expression × List TokenDetail) :=
  match fuel with
  | 0 => .error .Fuel
  | n + 1 =>
    parse_binary_expression n [Token.Asterisk, Token.Slash] .optional_or
      source_token_details

/-- Mirrors `parse_optional_or_expression`. -/
def parse_optional_or_expression (fuel : Nat)
    (source_token_details : List TokenDetail) : Res (Expression × List TokenDetail) :=
  match fuel with
  | 0 => .error .Fuel
  | n + 1 =>
    parse_binary_expression n [Token.OptionalOr] .optional_and source_token_details

/-- Mirrors `parse_optional_and_expression`. -/
def parse_optional_and_expression (fuel : Nat)
    (source_token_details : List TokenDetail) : Res (Expression × List TokenDetail) :=
  match fuel with
  | 0 => .error .Fuel
  | n + 1 =>
    parse_binary_expression n [Token.OptionalAnd] .combine source_token_details

/-- Mirrors `parse_combine_expression`: `&` is right-associative. -/
def parse_combine_expression (fuel : Nat) (source_token_details : List TokenDetail) :
    Res (Expression × List TokenDetail) :=
  match fuel with
  | 0 => .error .Fuel
  | n + 1 =>
    parse_right_2_left_binary_expression n Token.Combine .cast source_token_details

/-- Mirrors `parse_cast_expression` (postfix `^`). -/
def parse_cast_expression (fuel : Nat) (source_token_details : List TokenDetail) :
    Res (Expression × List TokenDetail) :=
  match fuel with
  | 0 => .error .Fuel
  | n + 1 => do
    let (left, post_expression) ← parse_negative_expression n source_token_details
    if is_token Token.Cast post_expression then do
      let post_consume_token_operator ← consume_token Token.Cast post_expression
      .ok (Expression.UnaryExpression Token.Cast left new_range,
        post_consume_token_operator)
    else .ok (left, post_expression)

/-- Mirrors `parse_negative_expression` (prefix `-`).  The source consumes
`Token::Cast` (`^`) instead of `Token::Minus` after seeing a minus — this
slip is preserved verbatim, so the minus branch always fails. -/
def parse_negative_expression (fuel : Nat) (source_token_details : List TokenDetail) :
    Res (Expression × List TokenDetail) :=
  match fuel with
  | 0 => .error .Fuel
  | n + 1 =>
    if is_token Token.Minus source_token_details then do
      let post_consume_token_operator ←
        consume_token Token.Cast source_token_details
      let (left, post_expression) ← parse_unwrap_expression n post_consume_token_operator
      .ok (Expression.UnaryExpression Token.Minus left new_range, post_expression)
    else parse_unwrap_expression n source_token_details

/-- Mirrors `parse_unwrap_expression` (postfix `?`). -/
def parse_unwrap_expression (fuel : Nat) (source_token_details : List TokenDetail) :
    Res (Expression × List TokenDetail) :=
  match fuel with
  | 0 => .error .Fuel
  | n + 1 => do
    let (left, post_expression) ← parse_mono_expression n source_token_details
    if is_token Token.Unwrap post_expression then do
      let post_consume_token_operator ← consume_token Token.Unwrap post_expression
      .ok (Expression.UnaryExpression Token.Unwrap left new_range,
        post_consume_token_operator)
    else .ok (left, post_expression)

/-- Mirrors `parse_mono_expression`. -/
def parse_mono_expression (fuel : Nat) (source_token_details : List TokenDetail) :
    Res (Expression × List TokenDetail) :=
  match fuel with
  | 0 => .error .Fuel
  | n + 1 => parse_function_call_expression n source_token_details

/-- Mirrors `parse_function_call_expression`: tuples, lists, maps, signs and
literals are never treated as callees. -/
def parse_function_call_expression (fuel : Nat)
    (source_token_details : List TokenDetail) : Res (Expression × List TokenDetail) :=
  match fuel with
  | 0 => .error .Fuel
  | n + 1 => do
    let (object, post_member_expression) ←
      parse_member_or_slice_expression n source_token_details
    match object with
    | Expression.Tuple _ _ => .ok (object, post_member_expression)
    | Expression.List _ _ => .ok (object, post_member_expression)
    | Expression.Map _ => .ok (object, post_member_expression)
    | Expression.Sign _ _ _ _ _ => .ok (object, post_member_expression)
    | Expression.Literal _ => .ok (object, post_member_expression)
    | _ => function_call_loop n object post_member_expression

/-- The continuation-call loop of `parse_function_call_expression`. -/
def function_call_loop (fuel : Nat) (object : Expression)
    (token_details : List TokenDetail) : Res (Expression × List TokenDetail) :=
  match fuel with
  | 0 => .error .Fuel
  | n + 1 =>
    if is_token Token.LeftParen token_details then do
      let (arguments, post_arguments) ← continue_parse_arguments n token_details
      function_call_loop n
        (Expression.FunctionCallExpression object arguments new_range) post_arguments
    else .ok (object, token_details)

/-- Mirrors `continue_parse_arguments`. -/
def continue_parse_arguments (fuel : Nat) (source_token_details : List TokenDetail) :
    Res (List Argument × List TokenDetail) :=
  match fuel with
  | 0 => .error .Fuel
  | n + 1 => do
    let td ← consume_token Token.LeftParen source_token_details
    let td := skip_new_lines td
    let (arguments, td2) ← arguments_loop n td [] false
    let td3 ← consume_token Token.RightParen td2
    .ok (arguments, td3)

/-- The argument loop of `continue_parse_arguments`; stops (without
consuming) at the closing parenthesis. -/
def arguments_loop (fuel : Nat) (token_details : List TokenDetail)
    (arguments : List Argument) (is_expected_end : Bool) :
    Res (List Argument × List TokenDetail) :=
  match fuel with
  | 0 => .error .Fuel
  | n + 1 =>
    match token_details with
    | [] => .error (.ParserError "expected the right paren symbol \")\"")
    | first :: _ =>
      if first.token = Token.RightParen then .ok (arguments, token_details)
      else if is_expected_end then
        .error (.ParserError "expected the right paren symbol \")\"")
      else do
        let (part_one, post_part_one) ← parse_expression n token_details
        let (new_arguments, post_one_argument) ←
          (if is_token Token.Assign post_part_one then
            match part_one with
            | Expression.Identifier (Identifier.mk _ name _ _) => do
              let post_consume_assign ← consume_token Token.Assign post_part_one
              let post_consume_new_lines_after_equal :=
                skip_new_lines post_consume_assign
              let (value_expression, post_value_expression) ←
                parse_expression n post_consume_new_lines_after_equal
              .ok (arguments ++ [Argument.mk (some name) value_expression new_range],
                post_value_expression)
            | _ => .error (.ParserError "invalid argument name")
          else
            .ok (arguments ++ [Argument.mk none part_one new_range], post_part_one)
          : Res (List Argument × List TokenDetail))
        let (post_consume_comma, flag) ←
          if is_token Token.Comma post_one_argument then do
            let t ← consume_token Token.Comma post_one_argument
            .ok (t, is_expected_end)
          else .ok (post_one_argument, true)
        arguments_loop n (skip_new_lines post_consume_comma) new_arguments flag

/-- Mirrors `parse_member_or_slice_expression`. -/
def parse_member_or_slice_expression (fuel : Nat)
    (source_token_details : List TokenDetail) : Res (Expression × List TokenDetail) :=
  match fuel with
  | 0 => .error .Fuel
  | n + 1 => do
    let (object, post_expression) ← parse_constructor_expression n source_token_details
    member_or_slice_loop n object post_expression

/-- The member/index loop of `parse_member_or_slice_expression`. -/
def member_or_slice_loop (fuel : Nat) (object : Expression)
    (token_details : List TokenDetail) : Res (Expression × List TokenDetail) :=
  match fuel with
  | 0 => .error .Fuel
  | n + 1 =>
    if is_token Token.LeftBracket token_details then do
      let (index_or_slice, post_index_or_slice) ←
        continue_parse_index_or_slice n token_details
      member_or_slice_loop n
        (Expression.MemberExpression
          (MemberExpression.Index object index_or_slice new_range))
        post_index_or_slice
    else if is_token_ignore_new_lines Token.Dot token_details then do
      let post_dot ← skip_new_lines_and_consume_token Token.Dot token_details
      let (property, post_property) ← parse_constructor_expression n post_dot
      match property with
      | Expression.Identifier _ =>
        member_or_slice_loop n
          (Expression.MemberExpression
            (MemberExpression.Property object property new_range))
          post_property
      | Expression.Literal (Literal.Integer _ _) =>
        member_or_slice_loop n
          (Expression.MemberExpression
            (MemberExpression.Property object property new_range))
          post_property
      | _ => .error (.ParserError "invalid property name")
    else .ok (object, token_details)

/-- Mirrors `continue_parse_index_or_slice`. -/
def continue_parse_index_or_slice (fuel : Nat)
    (source_token_details : List TokenDetail) : Res (Expression × List TokenDetail) :=
  match fuel with
  | 0 => .error .Fuel
  | n + 1 => do
    let td ← consume_token Token.LeftBracket source_token_details
    let td := skip_new_lines td
    let (index_or_slice_expression, post_expression) ← parse_expression n td
    let (index_or_slice_expression, td2) ←
      if is_token Token.Interval post_expression ∨
          is_token Token.IntervalInclusive post_expression then do
        let (is_inclusive, optional_to_expression, post_continue_parse_interval) ←
          continue_parse_interval n post_expression
        .ok (Expression.Interval is_inclusive index_or_slice_expression
          optional_to_expression new_range, post_continue_parse_interval)
      else .ok (index_or_slice_expression, post_expression)
    let td3 ← consume_token Token.RightBracket td2
    .ok (index_or_slice_expression, td3)

/-- Mirrors `parse_constructor_expression` (`identifier { ... }`). -/
def parse_constructor_expression (fuel : Nat)
    (source_token_details : List TokenDetail) : Res (Expression × List TokenDetail) :=
  match fuel with
  | 0 => .error .Fuel
  | n + 1 => do
    let (object, post_expression) ← parse_primary_expression n source_token_details
    match object with
    | Expression.Identifier identifier =>
      if is_token Token.LeftBrace post_expression then do
        let (initializer, post_continue_parse_map) ← continue_parse_map n post_expression
        .ok (Expression.ConstructorExpression identifier initializer new_range,
          post_continue_parse_map)
      else .ok (object, post_expression)
    | _ => .ok (object, post_expression)

/-- Mirrors `parse_primary_expression`. -/
def parse_primary_expression (fuel : Nat) (source_token_details : List TokenDetail) :
    Res (Expression × List TokenDetail) :=
  match fuel with
  | 0 => .error .Fuel
  | n + 1 =>
    match source_token_details with
    | first :: _ =>
      match first.token with
      | Token.Fn => parse_anonymous_function n source_token_details
      | Token.LeftParen => parse_tuple_or_parenthesized n source_token_details
      | Token.LeftBracket => parse_list n source_token_details
      | Token.LeftBrace => parse_map n source_token_details
      | Token.Exclamation => parse_prefix_identifier n source_token_details
      | Token.Identifier _ => parse_identifier n source_token_details
      | Token.Sign => parse_sign_expression n source_token_details
      | _ => do
        let (literal, post_literal) ← parse_literal source_token_details
        .ok (Expression.Literal literal, post_literal)
    | [] => .error (.ParserError "expected primary expression")

/-- Mirrors `parse_anonymous_function`. -/
def parse_anonymous_function (fuel : Nat) (source_token_details : List TokenDetail) :
    Res (Expression × List TokenDetail) :=
  match fuel with
  | 0 => .error .Fuel
  | n + 1 => do
    let td ← consume_token Token.Fn source_token_details
    let td := skip_new_lines td
    let (parameters, post_parameters) ←
      (match td with
        | maybe_left_paren :: post_left_paren =>
          if maybe_left_paren.token = Token.LeftParen then do
            let td2 := skip_new_lines post_left_paren
            let (parameters, td3) ← anon_params_loop n td2 [] false
            let td4 ← consume_token Token.RightParen td3
            .ok (parameters, td4)
          else
            match maybe_left_paren.token with
            | Token.Identifier name =>
              .ok ([AnonymousParameter.mk none name new_range], post_left_paren)
            | _ => .error (.ParserError "expected anonymous function parameter")
        | [] => .error (.ParserError "expected anonymous function parameter")
        : Res (List AnonymousParameter × List TokenDetail))
    let td5 := skip_new_lines post_parameters
    let (return_data_type, whiches, td6) ← subordinates_loop n td5 none []
    let post_assignment ←
      if is_token Token.Assign td6 then do
        let t ← consume_token Token.Assign td6
        .ok (skip_new_lines t)
      else .ok td6
    let (body, post_body) ←
      continue_parse_expression_block_or_single_expression n post_assignment
    .ok (Expression.AnonymousFunction parameters return_data_type whiches body
      new_range, post_body)

/-- The parameter loop of `parse_anonymous_function`; stops (without
consuming) at the closing parenthesis. -/
def anon_params_loop (fuel : Nat) (token_details : List TokenDetail)
    (parameters : List AnonymousParameter) (is_expected_end : Bool) :
    Res (List AnonymousParameter × List TokenDetail) :=
  match fuel with
  | 0 => .error .Fuel
  | n + 1 =>
    match token_details with
    | [] => .error (.ParserError "expected the right paren symbol \")\"")
    | first :: _ =>
      if first.token = Token.RightParen then .ok (parameters, token_details)
      else if is_expected_end then
        .error (.ParserError "expected the right paren symbol \")\"")
      else do
        let (part_one, post_part_one) ← parse_expression n token_details
        let (new_parameters, post_one_parameter) ←
          (match post_part_one with
            | maybe :: post_part_two =>
              if maybe.token = Token.Comma ∨ maybe.token = Token.RightParen then
                match part_one with
                | Expression.Identifier (Identifier.mk _ name _ _) =>
                  .ok (parameters ++ [AnonymousParameter.mk none name new_range],
                    post_part_one)
                | _ =>
                  .error (.ParserError "invalid anonymous function parameter name")
              else
                match maybe.token with
                | Token.Identifier name => do
                  let data_type ← convert_expression_to_data_type part_one
                  .ok (parameters ++
                    [AnonymousParameter.mk (some data_type) name new_range],
                    post_part_two)
                | _ =>
                  .error (.ParserError "incomplete anonymous function parameter")
            | [] => .error (.ParserError "incomplete anonymous function parameter")
            : Res (List AnonymousParameter × List TokenDetail))
        let (post_consume_comma, flag) ←
          if is_token Token.Comma post_one_parameter then do
            let t ← consume_token Token.Comma post_one_parameter
            .ok (t, is_expected_end)
          else .ok (post_one_parameter, true)
        anon_params_loop n (skip_new_lines post_consume_comma) new_parameters flag

/-- Mirrors `parse_list`. -/
def parse_list (fuel : Nat) (source_token_details : List TokenDetail) :
    Res (Expression × List TokenDetail) :=
  match fuel with
  | 0 => .error .Fuel
  | n + 1 => do
    let td ← consume_token Token.LeftBracket source_token_details
    let td := skip_new_lines td
    let (expressions, td2) ← list_elements_loop n td [] false
    let td3 ← consume_token Token.RightBracket td2
    .ok (Expression.List expressions new_range, td3)

/-- The element loop of `parse_list`; stops (without consuming) at the
closing bracket.  The message of the end-of-input arm says `")"`, exactly as
in the source. -/
def list_elements_loop (fuel : Nat) (token_details : List TokenDetail)
    (expressions : List Expression) (is_expected_end : Bool) :
    Res (List Expression × List TokenDetail) :=
  match fuel with
  | 0 => .error .Fuel
  | n + 1 =>
    match token_details with
    | [] => .error (.ParserError "expected the right bracket symbol \")\"")
    | first :: _ =>
      if first.token = Token.RightBracket then .ok (expressions, token_details)
      else if is_expected_end then
        .error (.ParserError "expected the right bracket symbol \"]\"")
      else if first.token = Token.Ellipsis then do
        let (ellipsis, post_ellipsis) ← continue_parse_ellipsis token_details
        let post_consume_comma ←
          if is_token Token.Comma post_ellipsis then
            consume_token Token.Comma post_ellipsis
          else .ok post_ellipsis
        list_elements_loop n (skip_new_lines post_consume_comma)
          (expressions ++ [Expression.Ellipsis ellipsis]) true
      else do
        let (expression, post_expression) ← parse_expression n token_details
        let (new_expressions, post_check_interval, flag0) ←
          (if is_token Token.Interval post_expression ∨
              is_token Token.IntervalInclusive post_expression then do
            let (is_inclusive, optional_to_expression, post_continue_parse_interval) ←
              continue_parse_interval n post_expression
            .ok (expressions ++
              [Expression.Interval is_inclusive expression optional_to_expression
                new_range],
              post_continue_parse_interval, true)
          else .ok (expressions ++ [expression], post_expression, is_expected_end)
          : Res (List Expression × List TokenDetail × Bool))
        let (post_consume_comma, flag) ←
          if is_token Token.Comma post_check_interval then do
            let t ← consume_token Token.Comma post_check_interval
            .ok (t, flag0)
          else .ok (post_check_interval, true)
        list_elements_loop n (skip_new_lines post_consume_comma) new_expressions flag

/-- Mirrors `parse_tuple_or_parenthesized`: a comma anywhere makes the
construct a tuple; a single element with no comma is unwrapped. -/
def parse_tuple_or_parenthesized (fuel : Nat)
    (source_token_details : List TokenDetail) : Res (Expression × List TokenDetail) :=
  match fuel with
  | 0 => .error .Fuel
  | n + 1 => do
    let td ← consume_token Token.LeftParen source_token_details
    let td := skip_new_lines td
    let (expressions, is_tuple, td2) ← tuple_elements_loop n td [] false false
    let td3 ← consume_token Token.RightParen td2
    match expressions with
    | [] => .ok (Expression.Tuple [] new_range, td3)
    | e0 :: _ =>
      if is_tuple then .ok (Expression.Tuple expressions new_range, td3)
      else .ok (e0, td3)

/-- The element loop of `parse_tuple_or_parenthesized`; stops (without
consuming) at the closing parenthesis, reporting whether a comma was seen. -/
def tuple_elements_loop (fuel : Nat) (token_details : List TokenDetail)
    (expressions : List Expression) (is_tuple : Bool) (is_expected_end : Bool) :
    Res (List Expression × Bool × List TokenDetail) :=
  match fuel with
  | 0 => .error .Fuel
  | n + 1 =>
    match token_details with
    | [] => .error (.ParserError "expected the right paren symbol \")\"")
    | first :: _ =>
      if first.token = Token.RightParen then
        .ok (expressions, is_tuple, token_details)
      else if is_expected_end then
        .error (.ParserError "expected the right paren symbol \")\"")
      else if first.token = Token.Ellipsis then do
        let (ellipsis, post_ellipsis) ← continue_parse_ellipsis token_details
        let post_consume_comma ←
          if is_token Token.Comma post_ellipsis then
            consume_token Token.Comma post_ellipsis
          else .ok post_ellipsis
        tuple_elements_loop n (skip_new_lines post_consume_comma)
          (expressions ++ [Expression.Ellipsis ellipsis]) is_tuple true
      else do
        let (expression, post_expression) ← parse_expression n token_details
        let (post_consume_comma, new_is_tuple, flag) ←
          if is_token Token.Comma post_expression then do
            let t ← consume_token Token.Comma post_expression
            .ok (t, true, is_expected_end)
          else .ok (post_expression, is_tuple, true)
        tuple_elements_loop n (skip_new_lines post_consume_comma)
          (expressions ++ [expression]) new_is_tuple flag

/-- Mirrors `continue_parse_interval`. -/
def continue_parse_interval (fuel : Nat) (source_token_details : List TokenDetail) :
    Res (Bool × Option Expression × List TokenDetail) :=
  match fuel with
  | 0 => .error .Fuel
  | n + 1 => do
    let is_inclusive := is_token Token.IntervalInclusive source_token_details
    let operator_token :=
      if is_inclusive then Token.IntervalInclusive else Token.Interval
    let post_consume_token_interval ←
      consume_token operator_token source_token_details
    let post_new_lines := skip_new_lines post_consume_token_interval
    match post_new_lines with
    | { token := t, .. } :: _ =>
      if t = Token.Comma ∨ t = Token.RightBracket then
        if is_inclusive then .error (.ParserError "expected inclusive range end")
        else .ok (is_inclusive, none, post_new_lines)
      else do
        let (to_expression, post_to_expression) ← parse_expression n post_new_lines
        .ok (is_inclusive, some to_expression, post_to_expression)
    | [] => do
      let (to_expression, post_to_expression) ← parse_expression n post_new_lines
      .ok (is_inclusive, some to_expression, post_to_expression)

/-- Mirrors `parse_map`. -/
def parse_map (fuel : Nat) (source_token_details : List TokenDetail) :
    Res (Expression × List TokenDetail) :=
  match fuel with
  | 0 => .error .Fuel
  | n + 1 => do
    let (map, post_continue_parse_map) ← continue_parse_map n source_token_details
    .ok (Expression.Map map, post_continue_parse_map)

/-- Mirrors `continue_parse_map`. -/
def continue_parse_map (fuel : Nat) (source_token_details : List TokenDetail) :
    Res (Map × List TokenDetail) :=
  match fuel with
  | 0 => .error .Fuel
  | n + 1 => do
    let td ← consume_token Token.LeftBrace source_token_details
    let td := skip_new_lines td
    let (entries, td2) ← map_entries_loop n td [] false
    let td3 ← consume_token Token.RightBrace td2
    .ok (Map.mk entries new_range, td3)

/-- The entry loop of `continue_parse_map`; stops (without consuming) at the
closing brace. -/
def map_entries_loop (fuel : Nat) (token_details : List TokenDetail)
    (entries : List MapEntry) (is_expected_end : Bool) :
    Res (List MapEntry × List TokenDetail) :=
  match fuel with
  | 0 => .error .Fuel
  | n + 1 =>
    match token_details with
    | [] => .error (.ParserError "expected the right brace symbol \"\x7d\"")
    | first :: _ =>
      if first.token = Token.RightBrace then .ok (entries, token_details)
      else if is_expected_end then
        .error (.ParserError "expected the right brace symbol \"\x7d\"")
      else if first.token = Token.Ellipsis then do
        let (ellipsis, post_ellipsis) ← continue_parse_ellipsis token_details
        let post_consume_comma ←
          if is_token Token.Comma post_ellipsis then
            consume_token Token.Comma post_ellipsis
          else .ok post_ellipsis
        map_entries_loop n (skip_new_lines post_consume_comma)
          (entries ++ [MapEntry.mk (Expression.Ellipsis ellipsis) none new_range]) true
      else do
        let (expression, post_key_expression) ← parse_expression n token_details
        let (new_entries, post_one_entry) ←
          (if is_token Token.Colon post_key_expression then do
            let post_consume_colon ← consume_token Token.Colon post_key_expression
            let post_consume_new_lines_after_colon := skip_new_lines post_consume_colon
            let (value_expression, post_value_expression) ←
              parse_expression n post_consume_new_lines_after_colon
            .ok (entries ++
              [MapEntry.mk expression (some value_expression) new_range],
              post_value_expression)
          else
            .ok (entries ++ [MapEntry.mk expression none new_range],
              post_key_expression)
          : Res (List MapEntry × List TokenDetail))
        let (post_consume_comma, flag) :=
          match post_one_entry with
          | first2 :: rest =>
            if first2.token = Token.Comma then (rest, is_expected_end)
            else if first2.token = Token.NewLine then (post_one_entry, is_expected_end)
            else (post_one_entry, true)
          | [] => (post_one_entry, true)
        map_entries_loop n (skip_new_lines post_consume_comma) new_entries flag

/-- Mirrors `parse_prefix_identifier` (`!name`). -/
def parse_prefix_identifier (fuel : Nat) (source_token_details : List TokenDetail) :
    Res (Expression × List TokenDetail) :=
  match fuel with
  | 0 => .error .Fuel
  | n + 1 => do
    let post_consume_token_exclamation ←
      consume_token Token.Exclamation source_token_details
    let (identifier, post_continue_parse_identifier) ←
      continue_parse_identifier n post_consume_token_exclamation
    .ok (Expression.PrefixIdentifier identifier new_range,
      post_continue_parse_identifier)

/-- Mirrors `parse_identifier`. -/
def parse_identifier (fuel : Nat) (source_token_details : List TokenDetail) :
    Res (Expression × List TokenDetail) :=
  match fuel with
  | 0 => .error .Fuel
  | n + 1 => do
    let (identifier, post_continue_parse_identifier) ←
      continue_parse_identifier n source_token_details
    .ok (Expression.Identifier identifier, post_continue_parse_identifier)

/-- Mirrors `continue_parse_identifier`: namespace path, then a speculative
generic-type-list parse whose failure is discarded with the cursor left
exactly at the `<` (a panic still propagates). -/
def continue_parse_identifier (fuel : Nat) (source_token_details : List TokenDetail) :
    Res (Identifier × List TokenDetail) :=
  match fuel with
  | 0 => .error .Fuel
  | n + 1 =>
    match source_token_details with
    | { token := Token.Identifier name, .. } :: rest => do
      let (names, token_details) ← ident_names_loop [name] rest
      let (generics, token_details2) ←
        (if is_token Token.LessThan token_details then
          match continue_parse_generic_names n token_details with
          | .ok (data_types, post_generics) => .ok (data_types, post_generics)
          | .error (.Panic m) => .error (.Panic m)
          | .error .Fuel => .error .Fuel
          | .error _ => .ok ([], token_details)
        else .ok ([], token_details)
        : Res (List DataType × List TokenDetail))
      .ok (Identifier.mk names.dropLast (names.getLastD "") generics new_range,
        token_details2)
    | _ => .error (.ParserError "expected identifier")

/-- Mirrors `parse_sign_expression`. -/
def parse_sign_expression (fuel : Nat) (source_token_details : List TokenDetail) :
    Res (Expression × List TokenDetail) :=
  match fuel with
  | 0 => .error .Fuel
  | n + 1 => do
    let td ← consume_token Token.Sign source_token_details
    let td := skip_new_lines td
    let (generics, td2) ←
      (if is_token Token.LessThan td then do
        let (data_types, post_generics) ← continue_parse_generic_names n td
        .ok (data_types, skip_new_lines post_generics)
      else .ok ([], td)
      : Res (List DataType × List TokenDetail))
    let td3 ← consume_token Token.LeftParen td2
    let td3 := skip_new_lines td3
    let (parameters, td4) ← sign_params_loop n td3 [] false
    let td5 ← consume_token Token.RightParen td4
    let td5 := skip_new_lines td5
    let (return_data_type, whiches, td6) ← subordinates_loop n td5 none []
    .ok (Expression.Sign parameters return_data_type generics whiches new_range, td6)

/-- The parameter loop of `parse_sign_expression`; stops (without consuming)
at the closing parenthesis. -/
def sign_params_loop (fuel : Nat) (token_details : List TokenDetail)
    (parameters : List SignParameter) (is_expected_end : Bool) :
    Res (List SignParameter × List TokenDetail) :=
  match fuel with
  | 0 => .error .Fuel
  | n + 1 =>
    match token_details with
    | [] => .error (.ParserError "expected the right paren symbol \")\"")
    | first :: _ =>
      if first.token = Token.RightParen then .ok (parameters, token_details)
      else if is_expected_end then
        .error (.ParserError "expected the right paren symbol \")\"")
      else do
        let (data_type_expression, post_data_type_expression) ←
          parse_expression n token_details
        let data_type ← convert_expression_to_data_type data_type_expression
        let (new_parameters, post_one_parameter) ←
          (match post_data_type_expression with
            | maybe :: post_name =>
              if maybe.token = Token.Comma ∨ maybe.token = Token.RightParen then
                .ok (parameters ++ [SignParameter.mk data_type none new_range],
                  post_data_type_expression)
              else
                match maybe.token with
                | Token.Identifier name =>
                  .ok (parameters ++ [SignParameter.mk data_type (some name) new_range],
                    post_name)
                | _ => .error (.ParserError "incomplete function parameter")
            | [] => .error (.ParserError "incomplete function parameter")
            : Res (List SignParameter × List TokenDetail))
        let (post_consume_comma, flag) ←
          if is_token Token.Comma post_one_parameter then do
            let t ← consume_token Token.Comma post_one_parameter
            .ok (t, is_expected_end)
          else .ok (post_one_parameter, true)
        sign_params_loop n (skip_new_lines post_consume_comma) new_parameters flag

end

/-- Fuel bound used by the closed-input theorems: generous enough that every
run below finishes (no theorem below ever produces `Err.Fuel`). -/
def parse_tokens (source_token_details : List TokenDetail) : Res Node :=
  parse (80 * (source_token_details.length + 2)) source_token_details

/-- End-to-end run: tokenize then parse, as `parse_from_string` does in the
parser's test suite. -/
def parse_source (text : List Char) : Res Node :=
  match tokenize text with
  | .error e => .error e
  | .ok token_details => parse_tokens token_details

/-!
Definitions used only to state the theorems: token records, expected AST
shapes, and the operator-tier table of the expression precedence chain.
-/

/-- Shorthand: a token record with the placeholder location. -/
def tok (t : Token) : TokenDetail := new_token_detail t

/-- Shorthand: an integer-literal expression node. -/
def lit (v : Int) : Expression := Expression.Literal (Literal.Integer v new_range)

/-- Shorthand: a binary-operator expression node. -/
def bin (op : Token) (l r : Expression) : Expression :=
  Expression.BinaryExpression op l r new_range

/-- Shorthand: an identifier expression with no namespace path or generics. -/
def ident (name : String) : Expression :=
  Expression.Identifier (Identifier.mk [] name [] new_range)

/-- Shorthand: the program node wrapping a single expression statement. -/
def prog1 (e : Expression) : Res Node :=
  .ok (Node.Program [Statement.Expression e] new_range)

/-- The token list of `1 op1 2 op2 3`. -/
def stmt_tokens3 (op1 op2 : Token) : List TokenDetail :=
  [tok (.Integer 1), tok op1, tok (.Integer 2), tok op2, tok (.Integer 3)]

/-- The binary-operator tiers of the precedence chain, loosest first,
exactly as wired through `parse_pipe_expression` ...
`parse_combine_expression` in the source (the named-operator tier is
represented by the concrete operator `:op:`). -/
def binary_tiers : List (List Token) :=
  [[Token.Pipe],
   [Token.LogicOr],
   [Token.LogicAnd],
   [Token.Equal, Token.NotEqual],
   [Token.GreaterThan, Token.GreaterThanOrEqual, Token.LessThan,
    Token.LessThanOrEqual],
   [Token.NamedOperator "op"],
   [Token.Concat],
   [Token.Plus, Token.Minus],
   [Token.Asterisk, Token.Slash],
   [Token.OptionalOr],
   [Token.OptionalAnd],
   [Token.Combine]]

/-- All operator pairs `(op1, op2)` with `op1` in a strictly looser tier
than `op2`. -/
def looser_pairs : List (Token × Token) :=
  (List.range binary_tiers.length).flatMap (fun i =>
    (List.range binary_tiers.length).flatMap (fun j =>
      if i < j then
        (binary_tiers.getD i []).flatMap (fun a =>
          (binary_tiers.getD j []).map (fun b => (a, b)))
      else []))

/-- All operator pairs drawn from one fold tier: the tiers parsed by the
fold loop of `parse_binary_expression`, which excludes the named-operator
tier (one application per level, by `parse_named_operator_expression`) and
the right-associative combine tier (index 11). -/
def fold_tier_pairs : List (Token × Token) :=
  ((List.range binary_tiers.length).filter (fun i => i != 5 && i != 11)).flatMap
    (fun i =>
      (binary_tiers.getD i []).flatMap (fun a =>
        (binary_tiers.getD i []).map (fun b => (a, b))))

/-- Tokens of `branch { default: { 1 }` followed by one further token `t`
and the closing brace: the shape that probes what may follow a parsed
`default` entry. -/
def branch_default_then (t : Token) : List TokenDetail :=
  [tok .Branch, tok .LeftBrace, tok .Default, tok .Colon, tok .LeftBrace,
   tok (.Integer 1), tok .RightBrace, tok .NewLine, tok t, tok .RightBrace]

/-- Tokens of `match x { default: { 1 }` followed by one further token `t`
and the closing brace. -/
def match_default_then (t : Token) : List TokenDetail :=
  [tok .Match, tok (.Identifier "x"), tok .LeftBrace, tok .Default, tok .Colon,
   tok .LeftBrace, tok (.Integer 1), tok .RightBrace, tok .NewLine, tok t,
   tok .RightBrace]

/-!
Theorems.  One theorem per claim (C1 ... C10 of the specification audit),
with witnesses for the hypothesis-bearing ones and counterexamples where
the claim fails on the code.
-/

/-- Helper: after the first identifier, a token stream that does not start
with `::` leaves the name-collection loop immediately. -/
theorem ident_names_loop_no_sep (names : List String) (ts : List TokenDetail)
    (h : is_token Token.Separator ts = false) :
    ident_names_loop names ts = .ok (names, ts) := by
  cases ts with
  | nil => rfl
  | cons t r =>
    simp only [is_token, decide_eq_false_iff_not] at h
    unfold ident_names_loop
    simp [h]

/-- C1 (code bug): the two entry points are not total.  Radix-prefixed
integers (`0x1`, `0b1`), bit-pattern literals (`4'b01`) and the empty
character literal (`''`) make `tokenize` abort — `todo!()` in
`lex_16_radix_integer` / `lex_2_radix_integer` / `continue_lex_bit_number`
and an out-of-bounds `value_chars[0]` in `lex_char` — and a token sequence
beginning with any of the declaration keywords `use const struct union
trait impl alias empty pattern`, or containing a template-string token,
makes `parse` abort in the corresponding `todo!()` parser, contrary to the
contract that each entry point returns a value or an error. -/
theorem c1_entry_points_panic :
    tokenize "0x1".toList = .error (.Panic "not yet implemented") ∧
    tokenize "0b1".toList = .error (.Panic "not yet implemented") ∧
    tokenize ['4', squote, 'b', '0', '1'] = .error (.Panic "not yet implemented") ∧
    tokenize [squote, squote] = .error (.Panic "index out of bounds") ∧
    parse_tokens [tok .Use] = .error (.Panic "not yet implemented") ∧
    parse_tokens [tok .Const] = .error (.Panic "not yet implemented") ∧
    parse_tokens [tok .Struct] = .error (.Panic "not yet implemented") ∧
    parse_tokens [tok .Union] = .error (.Panic "not yet implemented") ∧
    parse_tokens [tok .Trait] = .error (.Panic "not yet implemented") ∧
    parse_tokens [tok .Impl] = .error (.Panic "not yet implemented") ∧
    parse_tokens [tok .Alias] = .error (.Panic "not yet implemented") ∧
    parse_tokens [tok .Empty] = .error (.Panic "not yet implemented") ∧
    parse_tokens [tok .Pattern] = .error (.Panic "not yet implemented") ∧
    parse_tokens [tok (.TemplateString "x")] = .error (.Panic "not yet implemented") :=
  ⟨rfl, rfl, rfl, rfl, rfl, rfl, rfl, rfl, rfl, rfl, rfl, rfl, rfl, rfl⟩

/-- C2 (code bug): `-x` does not parse as a unary-minus expression.
`parse_negative_expression` consumes `Token::Cast` (`^`) instead of
`Token::Minus` after seeing a minus, so the negation branch always fails
with the `"^"` message (fuel 1 suffices in the direct call because the
failure is immediate), and the whole parse of `-x` fails. -/
theorem c2_prefix_negation_rejected :
    tokenize "-x".toList = .ok [tok .Minus, tok (.Identifier "x")] ∧
    parse_negative_expression 1 [tok .Minus, tok (.Identifier "x")] =
      .error (.ParserError "expected the specified symbol \"^\"") ∧
    parse_tokens [tok .Minus, tok (.Identifier "x")] =
      .error (.ParserError "expected the specified symbol \"^\"") :=
  ⟨rfl, rfl, rfl⟩

/-- C3 (counterexample): on the input `:foo(` the lexer does not fail with
a lexical error as the claim states; it emits a plain colon token and
re-lexes from the character after the colon. -/
theorem c3_colon_fallback_counterexample :
    tokenize ":foo(".toList =
      .ok [tok .Colon, tok (.Identifier "foo"), tok .LeftParen] :=
  rfl

/-- C3 (amended): `lex_named_operator` itself fails hard when it meets a
character that is neither an identifier character nor the closing `:`, but
`tokenize` catches that failure and falls back to a plain colon token,
resuming with the characters after the colon.  A plain colon is also
emitted when the character after `:` is not identifier-start, `::` is a
separator, and a well-formed `:name:` yields a named-operator token. -/
theorem c3_named_operator_fallback :
    lex_named_operator "foo(".toList =
      .error (.LexerError "invalid identifier letter") ∧
    tokenize ":foo(".toList =
      .ok [tok .Colon, tok (.Identifier "foo"), tok .LeftParen] ∧
    tokenize ":1".toList = .ok [tok .Colon, tok (.Integer 1)] ∧
    tokenize ":foo:".toList = .ok [tok (.NamedOperator "foo")] ∧
    tokenize "::".toList = .ok [tok .Separator] :=
  ⟨rfl, rfl, rfl, rfl, rfl⟩

/-- C4 (code bug): `0.5` does not lex to one floating-point token.  The `0`
handler's range check re-tests `is_char('.', rest)` — the same condition
that just succeeded — where it means to look one character past the dot, so
the float branch is dead code and `0.5` splits into the tokens `0`, `.`,
`5`; `0..10` happens to work because the duplicated test is right for a
range.  Even if the float branch were reachable, `lex_zero_point_float` is
`todo!()` and would abort. -/
theorem c4_zero_point_float_split :
    tokenize "0.5".toList = .ok [tok (.Integer 0), tok .Dot, tok (.Integer 5)] ∧
    tokenize "0..10".toList =
      .ok [tok (.Integer 0), tok .Interval, tok (.Integer 10)] ∧
    lex_zero_point_float ".5".toList = .error (.Panic "not yet implemented") :=
  ⟨rfl, rfl, rfl⟩

/-- C5: precedence and associativity of the binary-operator tiers.  For
every operator pair with `op1` in a strictly looser tier than `op2`,
`1 op1 2 op2 3` parses as `1 op1 (2 op2 3)`; within any one fold tier the
operators fold left; and the combine operator `&` is right-associative
(`1 & 2 & 3` parses as `1 & (2 & 3)`).  The named-operator tier is
represented by `:op:`; it allows a single application per level, so it is
in the cross-tier table but not in the fold table. -/
theorem c5_precedence_and_associativity :
    (∀ p ∈ looser_pairs,
      parse_tokens (stmt_tokens3 p.1 p.2) =
        prog1 (bin p.1 (lit 1) (bin p.2 (lit 2) (lit 3)))) ∧
    (∀ p ∈ fold_tier_pairs,
      parse_tokens (stmt_tokens3 p.1 p.2) =
        prog1 (bin p.2 (bin p.1 (lit 1) (lit 2)) (lit 3))) ∧
    parse_tokens (stmt_tokens3 .Combine .Combine) =
      prog1 (bin .Combine (lit 1) (bin .Combine (lit 2) (lit 3))) ∧
    parse_source "1+2*3".toList =
      prog1 (bin .Plus (lit 1) (bin .Asterisk (lit 2) (lit 3))) ∧
    parse_source "1+2+3".toList =
      prog1 (bin .Plus (bin .Plus (lit 1) (lit 2)) (lit 3)) ∧
    parse_source "1&2&3".toList =
      prog1 (bin .Combine (lit 1) (bin .Combine (lit 2) (lit 3))) := by
  refine ⟨?_, ?_, rfl, rfl, rfl, rfl⟩
  · have h : looser_pairs.map (fun p => parse_tokens (stmt_tokens3 p.1 p.2)) =
        looser_pairs.map
          (fun p => prog1 (bin p.1 (lit 1) (bin p.2 (lit 2) (lit 3)))) := rfl
    exact fun p hp => List.map_eq_map_iff.mp h p hp
  · have h : fold_tier_pairs.map (fun p => parse_tokens (stmt_tokens3 p.1 p.2)) =
        fold_tier_pairs.map
          (fun p => prog1 (bin p.2 (bin p.1 (lit 1) (lit 2)) (lit 3))) := rfl
    exact fun p hp => List.map_eq_map_iff.mp h p hp

/-- Witness for C5 at the claim's own concrete instances: the looser pair
`(+, *)` and the fold pair `(+, -)`. -/
theorem c5_witness :
    (Token.Plus, Token.Asterisk) ∈ looser_pairs ∧
    parse_tokens (stmt_tokens3 .Plus .Asterisk) =
      prog1 (bin .Plus (lit 1) (bin .Asterisk (lit 2) (lit 3))) ∧
    (Token.Plus, Token.Minus) ∈ fold_tier_pairs ∧
    parse_tokens (stmt_tokens3 .Plus .Minus) =
      prog1 (bin .Minus (bin .Plus (lit 1) (lit 2)) (lit 3)) :=
  ⟨by decide, c5_precedence_and_associativity.1 (.Plus, .Asterisk) (by decide),
   by decide, c5_precedence_and_associativity.2.1 (.Plus, .Minus) (by decide)⟩

/-- C6 (amended): after an identifier followed by `<`, the parser attempts
a bracketed generic-type list; whenever that sub-parse fails with a parse
error the failure is discarded and `continue_parse_identifier` returns the
identifier with no generics and the cursor exactly where it was before the
attempt, leaving the `<` for the relational tier (so `Point<Int>` is one
identifier with a generic argument and `a<b` is a comparison).  The
amendment drops the claim's final clause — this is not the only place a
parse failure is recovered; see the counterexample. -/
theorem c6_generic_speculation_rollback :
    (∀ (n : Nat) (name : String) (ts : List TokenDetail) (msg : String),
      is_token Token.Separator ts = false →
      continue_parse_generic_names n ts = .error (.ParserError msg) →
      continue_parse_identifier (n + 1) (tok (.Identifier name) :: ts) =
        .ok (Identifier.mk [] name [] new_range, ts)) ∧
    parse_source "Point<Int>".toList =
      prog1 (Expression.Identifier (Identifier.mk [] "Point"
        [DataType.Identifier (Identifier.mk [] "Int" [] new_range)] new_range)) ∧
    parse_source "a<b".toList = prog1 (bin .LessThan (ident "a") (ident "b")) := by
  refine ⟨?_, rfl, rfl⟩
  intro n name ts msg hsep hgen
  have h1 := ident_names_loop_no_sep [name] ts hsep
  by_cases hlt : is_token Token.LessThan ts
  · simp [continue_parse_identifier, tok, new_token_detail, h1, hlt, hgen,
      Bind.bind, Except.bind, Pure.pure, Except.pure]
  · simp [continue_parse_identifier, tok, new_token_detail, h1, hlt,
      Bind.bind, Except.bind, Pure.pure, Except.pure]

/-- Witness for C6 at a concrete failing generic list: `a< +` rolls back
and returns the plain identifier `a` with the cursor still at `<`. -/
theorem c6_witness :
    is_token Token.Separator [tok .LessThan, tok .Plus] = false ∧
    continue_parse_generic_names 60 [tok .LessThan, tok .Plus] =
      .error (.ParserError "invalid literal") ∧
    continue_parse_identifier 61 [tok (.Identifier "a"), tok .LessThan, tok .Plus] =
      .ok (Identifier.mk [] "a" [] new_range, [tok .LessThan, tok .Plus]) :=
  ⟨by decide, rfl,
   c6_generic_speculation_rollback.1 60 "a" [tok .LessThan, tok .Plus]
     "invalid literal" (by decide) rfl⟩

/-- C6 (counterexample to the "only place" clause): the right-hand-side
lookahead of `parse_for_expression` also recovers a parse failure.  On the
tokens of `for let i = 5 6`, the speculative `continue_parse_identifier` at
the right-hand value fails with "expected identifier", the failure is
discarded, and the whole parse succeeds — so the generics speculation is
not the only place a parse failure is recovered rather than propagated.
(The same lookahead exists in `parse_each_expression` and
`parse_match_expression`, and `continue_parse_match_case` likewise discards
a failed speculative primary-expression parse.) -/
theorem c6_other_recovery_counterexample :
    continue_parse_identifier 50 [tok (.Integer 5), tok (.Integer 6)] =
      .error (.ParserError "expected identifier") ∧
    parse_tokens [tok .For, tok .Let, tok (.Identifier "i"), tok .Assign,
        tok (.Integer 5), tok (.Integer 6)] =
      .ok (Node.Program [Statement.Expression (Expression.ForExpression
        (LetExpression.mk none (ident "i") (lit 5) new_range) (lit 6) new_range)]
        new_range) :=
  ⟨rfl, rfl⟩

/-- C7: tuple versus parenthesized expression.  If the parenthesized
content parses as one expression ending exactly at `)`, the construct is
that expression unwrapped; if it ends at `,)` the construct is the
one-element tuple; and concretely `(123)` is the integer literal while
`(123,)` is a tuple and `(123,1.732)` (a comma seen) is a two-element
tuple.  The fuel offsets mirror the two frames the embedding adds around
the inner expression parse. -/
theorem c7_tuple_vs_parenthesized :
    (∀ (n : Nat) (t0 : TokenDetail) (ts rest : List TokenDetail) (e : Expression),
      t0.token ≠ Token.NewLine → t0.token ≠ Token.RightParen →
      t0.token ≠ Token.Ellipsis →
      parse_expression (n + 1) (t0 :: ts) = .ok (e, tok .RightParen :: rest) →
      parse_tuple_or_parenthesized (n + 3) (tok .LeftParen :: t0 :: ts) =
        .ok (e, rest)) ∧
    (∀ (n : Nat) (t0 : TokenDetail) (ts rest : List TokenDetail) (e : Expression),
      t0.token ≠ Token.NewLine → t0.token ≠ Token.RightParen →
      t0.token ≠ Token.Ellipsis →
      parse_expression (n + 1) (t0 :: ts) =
        .ok (e, tok .Comma :: tok .RightParen :: rest) →
      parse_tuple_or_parenthesized (n + 3) (tok .LeftParen :: t0 :: ts) =
        .ok (Expression.Tuple [e] new_range, rest)) ∧
    parse_source "(123)".toList = prog1 (lit 123) ∧
    parse_source "(123,)".toList = prog1 (Expression.Tuple [lit 123] new_range) ∧
    parse_source "(123,1.732)".toList =
      prog1 (Expression.Tuple [lit 123,
        Expression.Literal (Literal.Float { num := 1732, den := 1000 } new_range)]
        new_range) := by
  refine ⟨?_, ?_, rfl, rfl, rfl⟩
  · intro n t0 ts rest e h1 h2 h3 hp
    simp [parse_tuple_or_parenthesized, tuple_elements_loop, consume_token, tok,
      new_token_detail, skip_new_lines, is_token, h1, h2, h3, hp,
      Bind.bind, Except.bind, Pure.pure, Except.pure]
  · intro n t0 ts rest e h1 h2 h3 hp
    simp [parse_tuple_or_parenthesized, tuple_elements_loop, consume_token, tok,
      new_token_detail, skip_new_lines, is_token, h1, h2, h3, hp,
      Bind.bind, Except.bind, Pure.pure, Except.pure]

/-- Witness for C7 with the inner expression `7`: `(7)` unwraps, `(7,)` is
a one-element tuple. -/
theorem c7_witness :
    parse_tuple_or_parenthesized 103
        [tok .LeftParen, tok (.Integer 7), tok .RightParen] = .ok (lit 7, []) ∧
    parse_tuple_or_parenthesized 103
        [tok .LeftParen, tok (.Integer 7), tok .Comma, tok .RightParen] =
      .ok (Expression.Tuple [lit 7] new_range, []) :=
  ⟨c7_tuple_vs_parenthesized.1 100 (tok (.Integer 7)) [tok .RightParen] [] (lit 7)
      (by decide) (by decide) (by decide) rfl,
   c7_tuple_vs_parenthesized.2.1 100 (tok (.Integer 7)) [tok .Comma, tok .RightParen]
      [] (lit 7) (by decide) (by decide) (by decide) rfl⟩

/-- C8: complex-literal fusion in `parse_literal`.  An integer or float
literal token immediately followed by `+` and an imaginary token fuses into
one complex literal (real = first value, imaginary = the imaginary value);
a lone imaginary token gives a complex with real part `0`; and when the
token after `+` is not imaginary, the literal stays a plain integer with
the `+` left unconsumed for the additive tier.  End to end, `3+4i` is the
complex (3, 4), `5i` is (0, 5) and `3+4` is a binary addition. -/
theorem c8_complex_literal_fusion :
    (∀ (v : Int) (f : F64) (rest : List TokenDetail),
      parse_literal (tok (.Integer v) :: tok .Plus :: tok (.Imaginary f) :: rest) =
        .ok (Literal.Complex (f64_of_i64 v) f new_range, rest)) ∧
    (∀ (v f : F64) (rest : List TokenDetail),
      parse_literal (tok (.Float v) :: tok .Plus :: tok (.Imaginary f) :: rest) =
        .ok (Literal.Complex v f new_range, rest)) ∧
    (∀ (f : F64) (rest : List TokenDetail),
      parse_literal (tok (.Imaginary f) :: rest) =
        .ok (Literal.Complex (f64_of_i64 0) f new_range, rest)) ∧
    (∀ (v : Int) (t2 : TokenDetail) (rest : List TokenDetail),
      (∀ f, t2.token ≠ Token.Imaginary f) →
      parse_literal (tok (.Integer v) :: tok .Plus :: t2 :: rest) =
        .ok (Literal.Integer v new_range, tok .Plus :: t2 :: rest)) ∧
    parse_source "3+4i".toList =
      prog1 (Expression.Literal (Literal.Complex { num := 3, den := 1 }
        { num := 4, den := 1 } new_range)) ∧
    parse_source "5i".toList =
      prog1 (Expression.Literal (Literal.Complex { num := 0, den := 1 }
        { num := 5, den := 1 } new_range)) ∧
    parse_source "3+4".toList = prog1 (bin .Plus (lit 3) (lit 4)) := by
  refine ⟨fun v f rest => rfl, fun v f rest => rfl, fun f rest => rfl,
    ?_, rfl, rfl, rfl⟩
  intro v t2 rest h
  obtain ⟨loc, tk⟩ := t2
  cases tk <;> first
    | rfl
    | exact absurd rfl (h _)

/-- Witness for C8's no-imaginary hypothesis at `3 + 4` (the token after
`+` is the integer `4`). -/
theorem c8_witness :
    (∀ f, (tok (.Integer 4)).token ≠ Token.Imaginary f) ∧
    parse_literal [tok (.Integer 3), tok .Plus, tok (.Integer 4)] =
      .ok (Literal.Integer 3 new_range, [tok .Plus, tok (.Integer 4)]) :=
  ⟨fun _ h => Token.noConfusion h,
   c8_complex_literal_fusion.2.2.2.1 3 (tok (.Integer 4)) []
     (fun _ h => Token.noConfusion h)⟩

/-- C9: `default` terminates the case list of both `branch` and `match`.
Once a `default` entry has been parsed the loops run with
`is_expected_end = true`, and then any leading token other than the closing
brace — in particular a further `case` or a second `default` — is a parse
error; case lists without `default`, or with `default` last, are
accepted. -/
theorem c9_default_terminates_case_list :
    (∀ (n : Nat) (t : TokenDetail) (rest : List TokenDetail)
      (cases : List BranchCase) (default_exp : Option Expression),
      t.token ≠ Token.RightBrace →
      branch_cases_loop (n + 1) (t :: rest) cases default_exp true =
        .error (.ParserError "expected the right brace symbol \"\x7d\"")) ∧
    (∀ (n : Nat) (t : TokenDetail) (rest : List TokenDetail)
      (cases : List MatchCase) (default_exp : Option Expression),
      t.token ≠ Token.RightBrace →
      match_cases_loop (n + 1) (t :: rest) cases default_exp true =
        .error (.ParserError "expected the right brace symbol \"\x7d\"")) ∧
    parse_tokens (branch_default_then .Case) =
      .error (.ParserError "expected the right brace symbol \"\x7d\"") ∧
    parse_tokens (branch_default_then .Default) =
      .error (.ParserError "expected the right brace symbol \"\x7d\"") ∧
    parse_tokens (match_default_then .Case) =
      .error (.ParserError "expected the right brace symbol \"\x7d\"") ∧
    parse_source "branch { case 1: 2 }".toList =
      prog1 (Expression.BranchExpression none
        [BranchCase.mk (lit 1) none (lit 2) new_range] none new_range) ∧
    parse_source "branch { case 1: 2, default: 3 }".toList =
      prog1 (Expression.BranchExpression none
        [BranchCase.mk (lit 1) none (lit 2) new_range] (some (lit 3)) new_range) ∧
    parse_source "match x { case 5: 6, default: 7 }".toList =
      prog1 (Expression.MatchExpression (ident "x") none
        [MatchCase.mk none (some (PatternExpression.Primary (lit 5))) none none
          (lit 6) new_range] (some (lit 7)) new_range) := by
  refine ⟨?_, ?_, rfl, rfl, rfl, rfl, rfl, rfl⟩
  · intro n t rest cases default_exp h
    simp [branch_cases_loop, h]
  · intro n t rest cases default_exp h
    simp [match_cases_loop, h]

/-- Witness for C9 at the token the claim names: a further `case` after
`default`. -/
theorem c9_witness :
    (tok .Case).token ≠ Token.RightBrace ∧
    branch_cases_loop 1 [tok .Case] [] none true =
      .error (.ParserError "expected the right brace symbol \"\x7d\"") ∧
    match_cases_loop 1 [tok .Case] [] none true =
      .error (.ParserError "expected the right brace symbol \"\x7d\"") :=
  ⟨by decide,
   c9_default_terminates_case_list.1 0 (tok .Case) [] [] none (by decide),
   c9_default_terminates_case_list.2.1 0 (tok .Case) [] [] none (by decide)⟩

/-- C10: the left-hand-side validity check accepts every expression —
`is_valid_left_hand_side` is constantly `true`, so the guard shared by
`parse_let_expression`, `parse_for_expression`, `parse_each_expression` and
`continue_parse_match_case` is the identity and the "invalid
left-hand-side value" / "invalid pattern expression" errors behind it are
unreachable.  Consequently every shape `parse_mono_expression` accepts is
accepted as a binder: a literal (`let 5 = 3`), a parenthesized binary
application (`let (1+2) = 3`), a function call (`let f(x) = 3`), and
likewise in `for`, `each` and a general match-case pattern. -/
theorem c10_lhs_check_always_true :
    (∀ e : Expression, is_valid_left_hand_side e = true) ∧
    (∀ (α : Type) (msg : String) (lhs : Expression) (k : Res α),
      check_left_hand_side msg lhs k = k) ∧
    parse_source "let 5 = 3".toList =
      prog1 (Expression.LetExpression (LetExpression.mk none (lit 5) (lit 3)
        new_range)) ∧
    parse_source "let (1+2) = 3".toList =
      prog1 (Expression.LetExpression (LetExpression.mk none
        (bin .Plus (lit 1) (lit 2)) (lit 3) new_range)) ∧
    parse_source "let f(x) = 3".toList =
      prog1 (Expression.LetExpression (LetExpression.mk none
        (Expression.FunctionCallExpression (ident "f")
          [Argument.mk none (ident "x") new_range] new_range) (lit 3) new_range)) ∧
    parse_source "for let 5 = 6 7".toList =
      prog1 (Expression.ForExpression
        (LetExpression.mk none (lit 5) (lit 6) new_range) (lit 7) new_range) ∧
    parse_source "each 5 in x 1".toList =
      prog1 (Expression.EachExpression (lit 5) (ident "x") (lit 1) new_range) ∧
    parse_source "match x { case 5: 6 }".toList =
      prog1 (Expression.MatchExpression (ident "x") none
        [MatchCase.mk none (some (PatternExpression.Primary (lit 5))) none none
          (lit 6) new_range] none new_range) :=
  ⟨fun _ => rfl, fun _ _ _ _ => rfl, rfl, rfl, rfl, rfl, rfl, rfl⟩

end XiaoXuan
